import Mathlib

/-!
Shallow embedding of the agent-economy demo (x402 payment client,
agent memory store, market agent) and proofs of the specification
claims about it.

Monetary amounts are modelled as exact rationals (`ℚ`); Python's
binary floating point is abstracted to exact arithmetic throughout,
and Python float formatting in log strings is abstracted by
`toString` on rationals.  Randomness (`random.randbytes`,
`random.uniform`, `random.randint`) and the wall clock are modelled
as external streams indexed by per-process draw counters carried in
the state.
-/

namespace AgentEconomy

/-- Model of a Python (JSON-like) value as passed around in dicts. -/
inductive PyVal where
  | none
  | bool (b : Bool)
  | num (q : ℚ)
  | str (s : String)
  | list (xs : List PyVal)
  | dict (entries : List (String × PyVal))
deriving Repr, Inhabited

mutual

/-- Decidable equality for the nested inductive `PyVal` (the deriving
handler does not support nested inductives). -/
def PyVal.decEq : (a b : PyVal) → Decidable (a = b)
  | .none, .none => isTrue rfl
  | .none, .bool _ => isFalse (fun h => PyVal.noConfusion h)
  | .none, .num _ => isFalse (fun h => PyVal.noConfusion h)
  | .none, .str _ => isFalse (fun h => PyVal.noConfusion h)
  | .none, .list _ => isFalse (fun h => PyVal.noConfusion h)
  | .none, .dict _ => isFalse (fun h => PyVal.noConfusion h)
  | .bool _, .none => isFalse (fun h => PyVal.noConfusion h)
  | .bool a, .bool b =>
    match instDecidableEqBool a b with
    | isTrue h => isTrue (congrArg PyVal.bool h)
    | isFalse h => isFalse (fun hh => by cases hh; exact h rfl)
  | .bool _, .num _ => isFalse (fun h => PyVal.noConfusion h)
  | .bool _, .str _ => isFalse (fun h => PyVal.noConfusion h)
  | .bool _, .list _ => isFalse (fun h => PyVal.noConfusion h)
  | .bool _, .dict _ => isFalse (fun h => PyVal.noConfusion h)
  | .num _, .none => isFalse (fun h => PyVal.noConfusion h)
  | .num _, .bool _ => isFalse (fun h => PyVal.noConfusion h)
  | .num a, .num b =>
    match (inferInstance : DecidableEq ℚ) a b with
    | isTrue h => isTrue (congrArg PyVal.num h)
    | isFalse h => isFalse (fun hh => by cases hh; exact h rfl)
  | .num _, .str _ => isFalse (fun h => PyVal.noConfusion h)
  | .num _, .list _ => isFalse (fun h => PyVal.noConfusion h)
  | .num _, .dict _ => isFalse (fun h => PyVal.noConfusion h)
  | .str _, .none => isFalse (fun h => PyVal.noConfusion h)
  | .str _, .bool _ => isFalse (fun h => PyVal.noConfusion h)
  | .str _, .num _ => isFalse (fun h => PyVal.noConfusion h)
  | .str a, .str b =>
    match instDecidableEqString a b with
    | isTrue h => isTrue (congrArg PyVal.str h)
    | isFalse h => isFalse (fun hh => by cases hh; exact h rfl)
  | .str _, .list _ => isFalse (fun h => PyVal.noConfusion h)
  | .str _, .dict _ => isFalse (fun h => PyVal.noConfusion h)
  | .list _, .none => isFalse (fun h => PyVal.noConfusion h)
  | .list _, .bool _ => isFalse (fun h => PyVal.noConfusion h)
  | .list _, .num _ => isFalse (fun h => PyVal.noConfusion h)
  | .list _, .str _ => isFalse (fun h => PyVal.noConfusion h)
  | .list xs, .list ys =>
    match PyVal.decEqList xs ys with
    | isTrue h => isTrue (congrArg PyVal.list h)
    | isFalse h => isFalse (fun hh => by cases hh; exact h rfl)
  | .list _, .dict _ => isFalse (fun h => PyVal.noConfusion h)
  | .dict _, .none => isFalse (fun h => PyVal.noConfusion h)
  | .dict _, .bool _ => isFalse (fun h => PyVal.noConfusion h)
  | .dict _, .num _ => isFalse (fun h => PyVal.noConfusion h)
  | .dict _, .str _ => isFalse (fun h => PyVal.noConfusion h)
  | .dict _, .list _ => isFalse (fun h => PyVal.noConfusion h)
  | .dict xs, .dict ys =>
    match PyVal.decEqDict xs ys with
    | isTrue h => isTrue (congrArg PyVal.dict h)
    | isFalse h => isFalse (fun hh => by cases hh; exact h rfl)

def PyVal.decEqList : (xs ys : List PyVal) → Decidable (xs = ys)
  | [], [] => isTrue rfl
  | [], _ :: _ => isFalse (fun h => List.noConfusion h)
  | _ :: _, [] => isFalse (fun h => List.noConfusion h)
  | x :: xs, y :: ys =>
    match PyVal.decEq x y with
    | isFalse h => isFalse (fun hh => by cases hh; exact h rfl)
    | isTrue h1 =>
      match PyVal.decEqList xs ys with
      | isTrue h2 => isTrue (by rw [h1, h2])
      | isFalse h => isFalse (fun hh => by cases hh; exact h rfl)

def PyVal.decEqDict :
    (xs ys : List (String × PyVal)) → Decidable (xs = ys)
  | [], [] => isTrue rfl
  | [], _ :: _ => isFalse (fun h => List.noConfusion h)
  | _ :: _, [] => isFalse (fun h => List.noConfusion h)
  | (k, x) :: xs, (k', y) :: ys =>
    match instDecidableEqString k k' with
    | isFalse h => isFalse (fun hh => by cases hh; exact h rfl)
    | isTrue hk =>
      match PyVal.decEq x y with
      | isFalse h => isFalse (fun hh => by cases hh; exact h rfl)
      | isTrue hx =>
        match PyVal.decEqDict xs ys with
        | isTrue h2 => isTrue (by rw [hk, hx, h2])
        | isFalse h => isFalse (fun hh => by cases hh; exact h rfl)

end

instance : DecidableEq PyVal := PyVal.decEq

/-- First binding of a key in a Python dict's entry list. -/
def pyLookup : List (String × PyVal) → String → Option PyVal
  | [], _ => Option.none
  | e :: es, k => if e.1 = k then some e.2 else pyLookup es k

/-- `v.get(k, dflt)` on a Python dict.  Returns `Option.none` when `v` is
not a dict (Python raises `AttributeError` there).  Note: a key bound to
Python `None` yields `PyVal.none`, not the default, exactly as in Python. -/
def pyGet (v : PyVal) (k : String) (dflt : PyVal) : Option PyVal :=
  match v with
  | .dict es => some ((pyLookup es k).getD dflt)
  | _ => Option.none

/-- Total variant of `pyGet` used only where the receiver is a dict by
construction. -/
def pyGetD (v : PyVal) (k : String) (dflt : PyVal) : PyVal :=
  (pyGet v k dflt).getD dflt

/-- Python truthiness. -/
def PyVal.truthy : PyVal → Bool
  | .none => false
  | .bool b => b
  | .num q => decide (q ≠ 0)
  | .str s => decide (s ≠ "")
  | .list xs => !xs.isEmpty
  | .dict es => !es.isEmpty

/-- Python `a or b`: the first operand if truthy, else the second. -/
def pyOr (a b : PyVal) : PyVal := if a.truthy then a else b

/-- Numeric view of a Python value; `Option.none` when a numeric
operation on it would raise `TypeError`. -/
def PyVal.asNum : PyVal → Option ℚ
  | .num q => some q
  | .bool b => some (if b then 1 else 0)
  | _ => Option.none

/-- Python `==` restricted to the comparisons this code performs
(a value against a number or a string): numeric types compare by
value, e.g. `True == 1`; a non-numeric value never equals a number. -/
def pyEq (a b : PyVal) : Bool :=
  match a, b with
  | .none, .none => true
  | .str x, .str y => x == y
  | a, b =>
    match a.asNum, b.asNum with
    | some x, some y => decide (x = y)
    | _, _ => false

/-- Python `str()` of a value, abstracted (`toString` on rationals
stands in for Python float formatting). -/
def pyStr : PyVal → String
  | .none => "None"
  | .bool b => if b then "True" else "False"
  | .num q => toString q
  | .str s => s
  | .list _ => "[...]"
  | .dict _ => "\x7b...\x7d"

/-- Python `int()` truncation toward zero on an exact rational. -/
def pyInt (q : ℚ) : ℤ := if 0 ≤ q then ⌊q⌋ else ⌈q⌉

/-- Rounding half away from zero (MySQL's DECIMAL rounding). -/
def roundHalfAway (q : ℚ) : ℤ := if 0 ≤ q then ⌊q + 1/2⌋ else -⌊-q + 1/2⌋

/-- Quantize to a `DECIMAL(_, scale)` column value. -/
def decQuant (scale : ℕ) (q : ℚ) : ℚ :=
  (roundHalfAway (q * 10 ^ scale) : ℚ) / 10 ^ scale

/-- Rounding half to even (Python `round`), on exact rationals. -/
def roundHalfEven (x : ℚ) : ℤ :=
  let f := ⌊x⌋
  let r := x - f
  if r < 1/2 then f
  else if 1/2 < r then f + 1
  else if Even f then f else f + 1

/-- Python `round(x, nd)` abstracted to exact rationals. -/
def pyRound (nd : ℕ) (x : ℚ) : ℚ :=
  (roundHalfEven (x * 10 ^ nd) : ℚ) / 10 ^ nd

/-- Substring test (`t in s` on Python strings, nonempty pattern). -/
def strContains (s pat : String) : Bool := (s.splitOn pat).length ≠ 1

-- ─── x402 client: constants and data classes ─────────────────────────

def DEFAULT_FACILITATOR_URL : String := "https://x402.org/facilitator"

def BASE_MAINNET : String := "eip155:8453"

def BASE_TESTNET : String := "eip155:84532"

def USDC_BASE : String := "0x833589fCD6eDb6E08f4c7C32D4f71b54bdA02913"

/-- `PaymentReceipt` dataclass.  `tx_id`, `payee` and
`settlement_response` are `PyVal`s because the live path stores
whatever the decoded settlement JSON and signed payload held. -/
structure PaymentReceipt where
  tx_id : PyVal
  amount_usdc : ℚ
  payer : String
  payee : PyVal
  network : String
  endpoint : String
  timestamp : String
  status : String := "confirmed"
  gas_fee : ℚ := 0
  settlement_response : Option PyVal := Option.none
deriving Repr, DecidableEq, Inhabited

/-- `X402Response` dataclass. -/
structure X402Response where
  status_code : ℕ
  data : PyVal
  payment : Option PaymentReceipt := Option.none
  paid : Bool := false
  headers : Option (List (String × String)) := Option.none
deriving Repr, DecidableEq, Inhabited

/-- External world: streams for `random` draws (hex strings for
`randbytes(..).hex()`, rationals for `uniform`/`randint`) and for
clock readings, each indexed by a per-process draw counter. -/
structure Ext where
  rand : ℕ → String
  randQ : ℕ → ℚ
  now : ℕ → String
  epoch : ℕ → ℕ

/-- Mutable state of an `X402Client`, plus the model's draw counters:
`rng` indexes the `random` stream and `clk` the clock stream. -/
structure ClientState where
  wallet_address : String
  network : String
  network_id : String
  mode : String
  facilitator_url : String
  balance_usdc : ℚ
  total_spent : ℚ
  payment_count : ℕ
  payments : List PaymentReceipt
  rng : ℕ
  clk : ℕ
deriving Repr, DecidableEq, Inhabited

/-- `X402Client.__init__` with no private key: the signer draws a fresh
simulated address, balance starts at 10.00 USDC with an empty ledger. -/
def X402Client.init (ext : Ext) (network : String := "base")
    (mode : String := "auto")
    (facilitator_url : String := DEFAULT_FACILITATOR_URL) : ClientState :=
  { wallet_address := "0x" ++ ext.rand 0
    network := network
    network_id := if network = "base" then BASE_MAINNET else BASE_TESTNET
    mode := mode
    facilitator_url := facilitator_url
    balance_usdc := 10
    total_spent := 0
    payment_count := 0
    payments := []
    rng := 1
    clk := 0 }

/-- `EvmSigner.sign_payment` (simulated branch; the real-signing branch
produces the same structured payload, with the signature abstracted as
an entropy draw, and falls back to the simulated one on failure).
Reads the requirements dict with `.get`, so a non-dict argument raises
(`Except.error`).  Returns the payload dict and the advanced draw and
clock counters. -/
def sign_payment (ext : Ext) (addr : String) (pr : PyVal) (rng clk : ℕ) :
    Except String (PyVal × ℕ × ℕ) := do
  let amount ← match pyGet pr "maxAmountRequired" (.str "0") with
    | some v => Except.ok v
    | Option.none => Except.error "AttributeError"
  let resource ← match pyGet pr "resource" (.dict []) with
    | some v => Except.ok v
    | Option.none => Except.error "AttributeError"
  let pay_to ← match pyGet resource "payTo" (.str "") with
    | some v => Except.ok v
    | Option.none => Except.error "AttributeError"
  let network ← match pyGet pr "network" (.str BASE_MAINNET) with
    | some v => Except.ok v
    | Option.none => Except.error "AttributeError"
  let nonce := "0x" ++ ext.rand rng
  let sig := "0x" ++ ext.rand (rng + 1)
  Except.ok
    (.dict
      [("scheme", .str "exact"),
       ("network", network),
       ("payload",
        .dict
          [("signature", .str sig),
           ("from", .str addr),
           ("to", pay_to),
           ("value", .str (pyStr amount)),
           ("validAfter", .str "0"),
           ("validBefore", .str (toString (ext.epoch clk + 300))),
           ("nonce", .str nonce)]),
       ("x402Version", .num 2)],
     rng + 2, clk + 1)

/-- `X402Client._record_payment`: build a receipt, deduct the cost,
bump the spent total and counter, append to the ledger. -/
def record_payment (ext : Ext) (endpoint : String) (cost_usdc : ℚ)
    (tx_id : PyVal) (payee : PyVal) (settlement : Option PyVal)
    (s : ClientState) : PaymentReceipt × ClientState :=
  let receipt : PaymentReceipt :=
    { tx_id := tx_id
      amount_usdc := cost_usdc
      payer := s.wallet_address
      payee := payee
      network := s.network
      endpoint := endpoint
      timestamp := ext.now s.clk
      status := "confirmed"
      gas_fee := 0
      settlement_response := settlement }
  (receipt,
   { s with
      balance_usdc := s.balance_usdc - cost_usdc
      total_spent := s.total_spent + cost_usdc
      payment_count := s.payment_count + 1
      payments := s.payments ++ [receipt]
      clk := s.clk + 1 })

def tokenTable : List (String × String × ℚ) :=
  [("bitcoin", "btc", 95000), ("ethereum", "eth", 2650),
   ("solana", "sol", 180)]

/-- Token detection loop of `_generate_market_data`. -/
def detectToken (endpoint : String) : String :=
  match tokenTable.find? (fun t => strContains endpoint.toLower t.1) with
  | some t => t.1
  | Option.none => "ethereum"

/-- `X402Client._generate_market_data`: fabricate a market-data payload
from uniform/randint draws. -/
def generate_market_data (ext : Ext) (endpoint : String)
    (s : ClientState) : PyVal × ClientState :=
  let token_id := detectToken endpoint
  let info := (tokenTable.find? (fun t => t.1 = token_id)).getD
    ("ethereum", "eth", 2650)
  let base_price := info.2.2 + ext.randQ s.rng
  let mcapFactor : ℚ :=
    if token_id = "ethereum" then 120000000
    else if token_id = "bitcoin" then 21000000 else 400000000
  let data : PyVal :=
    .dict
      [("id", .str token_id),
       ("symbol", .str info.2.1),
       ("name", .str token_id.capitalize),
       ("market_data",
        .dict
          [("current_price", .dict [("usd", .num (pyRound 2 base_price))]),
           ("price_change_24h", .num (pyRound 2 (ext.randQ (s.rng + 1)))),
           ("price_change_percentage_24h",
            .num (pyRound 2 (ext.randQ (s.rng + 2)))),
           ("high_24h",
            .dict [("usd",
              .num (pyRound 2 (base_price + ext.randQ (s.rng + 3))))]),
           ("low_24h",
            .dict [("usd",
              .num (pyRound 2 (base_price - ext.randQ (s.rng + 4))))]),
           ("market_cap",
            .dict [("usd", .num (pyRound 0 (base_price * mcapFactor)))]),
           ("total_volume",
            .dict [("usd", .num (pyRound 0 (ext.randQ (s.rng + 5))))])]),
       ("volatility",
        .dict
          [("volatility_24h", .num (pyRound 2 (ext.randQ (s.rng + 6)))),
           ("volatility_7d", .num (pyRound 2 (ext.randQ (s.rng + 7)))),
           ("fear_greed_index", .num (ext.randQ (s.rng + 8)))]),
       ("timestamp", .str (ext.now s.clk)),
       ("x402",
        .dict
          [("paid", .bool true),
           ("cost_usdc", .num (1/100)),
           ("protocol_version", .num 2),
           ("network", .str s.network_id)])]
  (data, { s with rng := s.rng + 9, clk := s.clk + 1 })

/-- `X402Client._request_simulated`. -/
def request_simulated (ext : Ext) (endpoint : String) (cost_usdc : ℚ)
    (s : ClientState) : X402Response × ClientState :=
  if s.balance_usdc < cost_usdc then
    ({ status_code := 402
       data := .dict
         [("error", .str "Insufficient USDC balance"),
          ("required", .num cost_usdc),
          ("balance", .num s.balance_usdc)] }, s)
  else
    let payee := "0x" ++ ext.rand s.rng
    let payment_requirements : PyVal :=
      .dict
        [("scheme", .str "exact"),
         ("network", .str s.network_id),
         ("maxAmountRequired", .str (toString (pyInt (cost_usdc * 1000000)))),
         ("resource",
          .dict
            [("payTo", .str payee),
             ("description", .str ("Market data from " ++ endpoint))]),
         ("extra",
          .dict
            [("token", .str USDC_BASE),
             ("name", .str "USD Coin"),
             ("decimals", .num 6)])]
    match sign_payment ext s.wallet_address payment_requirements
        (s.rng + 1) s.clk with
    -- unreachable: the requirements value above is a dict literal
    | Except.error _ => ({ status_code := 500, data := .none }, s)
    | Except.ok (_payload, rng1, clk1) =>
      let tx_id := "0x" ++ ext.rand rng1
      let settlement : PyVal :=
        .dict
          [("txHash", .str tx_id),
           ("network", .str s.network_id),
           ("success", .bool true),
           ("payer", .str s.wallet_address),
           ("payee", .str payee),
           ("amount", .str (toString (pyInt (cost_usdc * 1000000)))),
           ("token", .str USDC_BASE)]
      let rp := record_payment ext endpoint cost_usdc (.str tx_id)
        (.str payee) (some settlement) { s with rng := rng1 + 1, clk := clk1 }
      let gen := generate_market_data ext endpoint rp.2
      ({ status_code := 200
         data := gen.1
         payment := some rp.1
         paid := true }, gen.2)

-- ─── x402 client: live path ──────────────────────────────────────────

/-- An HTTP response as observed by the client.  `body_json` is
`Option.none` when `.json()` on the body raises. -/
structure HttpResp where
  status_code : ℕ
  payment_required_header : Option String := Option.none
  settle_header : Option String := Option.none
  body_json : Option PyVal := Option.none
  text : String := ""
  headers : List (String × String) := []
deriving Repr, Inhabited

/-- Environment of one live request: the outcomes of the two GETs
(`Except.error e` models a raised `requests.exceptions.RequestException`
with message `e`; the second GET is keyed by the encoded
`PAYMENT-SIGNATURE` header value), and the meaning of the external
base64/JSON codecs applied to headers and payloads (`Option.none`
models a decoding exception). -/
structure LiveEnv where
  first : Except String HttpResp
  second : String → Except String HttpResp
  decodeReqHeader : String → Option PyVal
  decodeSettleHeader : String → Option PyVal
  encodePayload : PyVal → String

/-- Outcome of looking for payment requirements in a 402 response. -/
inductive ReqsOutcome where
  | reqs (pr : PyVal)
  | failResult
deriving Repr, Inhabited

/-- The requirements-extraction step of `_request_live`: prefer the
`PAYMENT-REQUIRED` header (whose base64/JSON decoding failure is an
uncaught exception), else fall back to a V1 JSON body (whose failures
are caught and turned into a `failResult`). -/
def parseRequirements (env : LiveEnv) (resp : HttpResp) :
    Except String ReqsOutcome :=
  match resp.payment_required_header with
  | Option.none =>
    match resp.body_json with
    | Option.none => Except.ok .failResult
    | some body =>
      match pyGet body "x402Version" PyVal.none with
      | Option.none => Except.ok .failResult
      | some v =>
        if pyEq v (.num 1) then Except.ok (.reqs body)
        else Except.ok .failResult
  | some h =>
    match env.decodeReqHeader h with
    | Option.none =>
      Except.error "ProtocolError: malformed PAYMENT-REQUIRED header"
    | some pr => Except.ok (.reqs pr)

/-- The `isinstance` juggling on the decoded requirements: a dict is
kept, a list contributes its first element (empty list raises
`IndexError`), anything else is passed through unchanged (and will
raise in `sign_payment`). -/
def selectRequirements : PyVal → Except String PyVal
  | .dict es => Except.ok (.dict es)
  | .list [] => Except.error "IndexError: payment requirements list empty"
  | .list (x :: _) => Except.ok x
  | v => Except.ok v

/-- `X402Client._request_live`.  The result is `Except.error` exactly
when an exception other than the caught
`requests.exceptions.RequestException` propagates out of the method. -/
def request_live (ext : Ext) (env : LiveEnv) (url : String)
    (cost_usdc : ℚ) (s : ClientState) :
    Except String (X402Response × ClientState) :=
  match env.first with
  | Except.error e =>
    Except.ok
      ({ status_code := 0
         data := .dict [("error", .str ("Request failed: " ++ e))] }, s)
  | Except.ok resp =>
    if resp.status_code = 402 then
      match parseRequirements env resp with
      | Except.error e => Except.error e
      | Except.ok .failResult =>
        Except.ok
          ({ status_code := 402
             data := .dict
               [("error", .str "No payment requirements in response")] },
           s)
      | Except.ok (.reqs prRaw) =>
        match selectRequirements prRaw with
        | Except.error e => Except.error e
        | Except.ok pr =>
          match sign_payment ext s.wallet_address pr s.rng s.clk with
          | Except.error e => Except.error e
          | Except.ok (payload, rng1, clk1) =>
            let s1 := { s with rng := rng1, clk := clk1 }
            match env.second (env.encodePayload payload) with
            | Except.error e =>
              Except.ok
                ({ status_code := 0
                   data := .dict
                     [("error", .str ("Request failed: " ++ e))] }, s1)
            | Except.ok resp2 =>
              if resp2.status_code = 200 then
                let settlement : Option PyVal :=
                  match resp2.settle_header with
                  | Option.none => Option.none
                  | some sh => env.decodeSettleHeader sh
                let dflt := "0x" ++ ext.rand s1.rng
                let s2 := { s1 with rng := s1.rng + 1 }
                let txE : Except String PyVal :=
                  match settlement with
                  | some st =>
                    if st.truthy then
                      match pyGet st "txHash" (.str dflt) with
                      | some t => Except.ok t
                      | Option.none =>
                        Except.error
                          "AttributeError: settlement object has no get"
                    else Except.ok (.str dflt)
                  | Option.none => Except.ok (.str dflt)
                match txE with
                | Except.error e => Except.error e
                | Except.ok tx =>
                  let payee :=
                    pyGetD (pyGetD payload "payload" (.dict [])) "to"
                      (.str "unknown")
                  let rp :=
                    record_payment ext url cost_usdc tx payee settlement s2
                  let data :=
                    match resp2.body_json with
                    | some d => d
                    | Option.none =>
                      .dict [("raw", .str (resp2.text.take 1000))]
                  Except.ok
                    ({ status_code := 200
                       data := data
                       payment := some rp.1
                       paid := true
                       headers := some resp2.headers }, rp.2)
              else
                Except.ok
                  ({ status_code := resp2.status_code
                     data := .dict
                       [("error",
                         .str ("Payment rejected: " ++
                           toString resp2.status_code)),
                        ("body", .str (resp2.text.take 500))] }, s1)
    else if resp.status_code = 200 then
      let data :=
        match resp.body_json with
        | some d => d
        | Option.none => .dict [("raw", .str (resp.text.take 1000))]
      Except.ok ({ status_code := 200, data := data }, s)
    else
      Except.ok
        ({ status_code := resp.status_code
           data := .dict
             [("error", .str ("HTTP " ++ toString resp.status_code)),
              ("body", .str (resp.text.take 500))] }, s)

/-- `X402Client.request`: dispatch between the live and the simulated
flow. -/
def request (ext : Ext) (env : LiveEnv) (endpoint : String)
    (cost_usdc : ℚ) (s : ClientState) :
    Except String (X402Response × ClientState) :=
  if s.mode = "live" ∨ (s.mode = "auto" ∧ endpoint.startsWith "http") then
    request_live ext env endpoint cost_usdc s
  else
    Except.ok (request_simulated ext endpoint cost_usdc s)

/-- `X402Client.get_wallet_status` (the embedding has no real signer,
so `has_real_signer` is `False`). -/
def get_wallet_status (s : ClientState) : PyVal :=
  .dict
    [("wallet_address", .str s.wallet_address),
     ("network", .str s.network),
     ("network_id", .str s.network_id),
     ("balance_usdc", .num (pyRound 4 s.balance_usdc)),
     ("total_spent_usdc", .num (pyRound 4 s.total_spent)),
     ("payment_count", .num s.payment_count),
     ("mode", .str s.mode),
     ("has_real_signer", .bool false)]

-- ─── Agent memory (TiDB-backed store) ────────────────────────────────

/-- Coerce a Python value into a `DECIMAL(_, scale)` column value:
`None` becomes NULL and numbers are quantized; anything else is a
strict-mode insertion error (`Option.none`). -/
def sqlDec (scale : ℕ) : PyVal → Option (Option ℚ)
  | .none => some Option.none
  | .num q => some (some (decQuant scale q))
  | .bool b => some (some (if b then 1 else 0))
  | _ => Option.none

/-- Coerce a Python value into an `INT` column value. -/
def sqlInt : PyVal → Option (Option ℤ)
  | .none => some Option.none
  | .num q => some (some (roundHalfAway q))
  | .bool b => some (some (if b then 1 else 0))
  | _ => Option.none

/-- Row of the `market_data` table. -/
structure MarketRow where
  id : ℕ
  token_id : String
  price_usd : ℚ
  change_24h_pct : Option ℚ
  volume_24h : Option ℚ
  volatility_24h : Option ℚ
  fear_greed_index : Option ℤ
  raw_data : PyVal
  source : String := "coingecko_x402"
  fetched_at : ℕ
deriving Repr, DecidableEq, Inhabited

/-- Row of the `payment_log` table. -/
structure PaymentRow where
  id : ℕ
  tx_id : PyVal
  amount_usdc : ℚ
  payer : String
  payee : PyVal
  network : String
  endpoint : String
  status : String
  gas_fee : ℚ
  created_at : ℕ
deriving Repr, DecidableEq, Inhabited

/-- Row of the `strategy_log` table. -/
structure StrategyRow where
  id : ℕ
  agent_id : String
  action_type : String
  token_id : Option String
  signal_name : Option String
  signal_value : Option ℚ
  decision : String
  reasoning : Option String
  confidence : Option ℚ
  metadata : Option PyVal
  created_at : ℕ
deriving Repr, DecidableEq, Inhabited

/-- Row of the `agent_state` table (`agent_id` is the primary key). -/
structure AgentRow where
  agent_id : String
  agent_type : String
  status : String := "active"
  wallet_address : Option String
  balance_usdc : Option ℚ
  total_spent_usdc : Option ℚ := some 0
  tasks_completed : ℕ := 0
  config : Option PyVal
  last_heartbeat : ℕ
deriving Repr, DecidableEq, Inhabited

/-- The persisted store: the four tables, auto-increment counters and
a strictly increasing timestamp clock. -/
structure DB where
  market_data : List MarketRow := []
  payment_log : List PaymentRow := []
  strategy_log : List StrategyRow := []
  agent_state : List AgentRow := []
  next_market_id : ℕ := 1
  next_payment_id : ℕ := 1
  next_strategy_id : ℕ := 1
  clock : ℕ := 0
deriving Repr, DecidableEq, Inhabited

/-- Fresh store right after `_init_schema`. -/
def DB.init : DB := {}

/-- Lift a fallible library step into the exception monad
(`Except.error` models an uncaught Python or database exception). -/
def liftO {α : Type} : Option α → Except String α
  | some a => Except.ok a
  | Option.none => Except.error "uncaught exception"

/-- `AgentMemory.store_market_data`: extract the columns from the data
dict (with Python `or` coalescing) and insert one `market_data` row.
`Except.error` models an uncaught Python/DB error. -/
def store_market_data (db : DB) (token_id : String) (data : PyVal) :
    Except String (DB × ℕ) := do
  let market ← liftO (pyGet data "market_data" data)
  let cp ← liftO (pyGet market "current_price" (.dict []))
  let p1 ← liftO (pyGet cp "usd" PyVal.none)
  let pf ← liftO (pyGet data "price_usd" (.num 0))
  let price := pyOr p1 pf
  let c1 ← liftO (pyGet market "price_change_percentage_24h" PyVal.none)
  let cf ← liftO (pyGet data "change_24h_pct" (.num 0))
  let change := pyOr c1 cf
  let tv ← liftO (pyGet market "total_volume" (.dict []))
  let v1 ← liftO (pyGet tv "usd" PyVal.none)
  let vf ← liftO (pyGet data "volume_24h" (.num 0))
  let volume := pyOr v1 vf
  let volDict ← liftO (pyGet data "volatility" (.dict []))
  let volatility ← liftO (pyGet volDict "volatility_24h" PyVal.none)
  let volDict2 ← liftO (pyGet data "volatility" (.dict []))
  let fgi ← liftO (pyGet volDict2 "fear_greed_index" PyVal.none)
  let priceOpt ← liftO (sqlDec 2 price)
  let priceQ ← liftO priceOpt
  let changeN ← liftO (sqlDec 2 change)
  let volumeN ← liftO (sqlDec 0 volume)
  let volatN ← liftO (sqlDec 2 volatility)
  let fgiN ← liftO (sqlInt fgi)
  let row : MarketRow :=
    { id := db.next_market_id
      token_id := token_id
      price_usd := priceQ
      change_24h_pct := changeN
      volume_24h := volumeN
      volatility_24h := volatN
      fear_greed_index := fgiN
      raw_data := data
      source := "coingecko_x402"
      fetched_at := db.clock }
  Except.ok
    ({ db with
        market_data := db.market_data ++ [row]
        next_market_id := db.next_market_id + 1
        clock := db.clock + 1 }, row.id)

/-- `AgentMemory.log_payment`: insert the receipt into the audit
trail.  The `tx_id` column is UNIQUE, so a duplicate transaction id is
an integrity error (an uncaught exception in callers). -/
def log_payment (db : DB) (r : PaymentReceipt) : Except String (DB × ℕ) :=
  if db.payment_log.any (fun p => p.tx_id = r.tx_id) then
    Except.error "IntegrityError: duplicate tx_id"
  else
    let row : PaymentRow :=
      { id := db.next_payment_id
        tx_id := r.tx_id
        amount_usdc := decQuant 4 r.amount_usdc
        payer := r.payer
        payee := r.payee
        network := r.network
        endpoint := r.endpoint
        status := r.status
        gas_fee := decQuant 6 r.gas_fee
        created_at := db.clock }
    Except.ok
      ({ db with
          payment_log := db.payment_log ++ [row]
          next_payment_id := db.next_payment_id + 1
          clock := db.clock + 1 }, row.id)

def actionTypes : List String :=
  ["alert", "recommendation", "execution", "observation"]

/-- `AgentMemory.log_strategy`: insert one decision row.
`action_type` must lie in the ENUM; `signal_value` and `confidence`
are DECIMAL columns fed with Python values; `metadata` is stored only
when truthy (`json.dumps(metadata) if metadata else None`). -/
def log_strategy (db : DB) (agent_id action_type decision : String)
    (token_id signal_name : Option String) (signal_value : PyVal)
    (reasoning : Option String) (confidence : PyVal)
    (metadata : PyVal) : Except String (DB × ℕ) := do
  if action_type ∈ actionTypes then
    let svN ← liftO (sqlDec 4 signal_value)
    let cfN ← liftO (sqlDec 2 confidence)
    let row : StrategyRow :=
      { id := db.next_strategy_id
        agent_id := agent_id
        action_type := action_type
        token_id := token_id
        signal_name := signal_name
        signal_value := svN
        decision := decision
        reasoning := reasoning
        confidence := cfN
        metadata := if metadata.truthy then some metadata else Option.none
        created_at := db.clock }
    Except.ok
      ({ db with
          strategy_log := db.strategy_log ++ [row]
          next_strategy_id := db.next_strategy_id + 1
          clock := db.clock + 1 }, row.id)
  else Except.error "ENUM violation: bad action_type"

/-- `AgentMemory.register_agent`: `INSERT ... ON DUPLICATE KEY UPDATE
status = 'active', last_heartbeat = NOW()` keyed by `agent_id`. -/
def register_agent (db : DB) (agent_id agent_type : String)
    (wallet_address : Option String) (config : PyVal) : DB :=
  if db.agent_state.any (fun r => r.agent_id = agent_id) then
    { db with
        agent_state := db.agent_state.map (fun r =>
          if r.agent_id = agent_id then
            { r with status := "active", last_heartbeat := db.clock }
          else r)
        clock := db.clock + 1 }
  else
    { db with
        agent_state := db.agent_state ++
          [{ agent_id := agent_id
             agent_type := agent_type
             status := "active"
             wallet_address := wallet_address
             balance_usdc := Option.none
             total_spent_usdc := some 0
             tasks_completed := 0
             config := if config.truthy then some config else Option.none
             last_heartbeat := db.clock }]
        clock := db.clock + 1 }

/-- `AgentMemory.update_agent_spending`. -/
def update_agent_spending (db : DB) (agent_id : String)
    (balance total_spent : PyVal) : Except String DB := do
  let balN ← liftO (sqlDec 4 balance)
  let totN ← liftO (sqlDec 4 total_spent)
  Except.ok
    { db with
        agent_state := db.agent_state.map (fun r =>
          if r.agent_id = agent_id then
            { r with
                balance_usdc := balN
                total_spent_usdc := totN
                last_heartbeat := db.clock }
          else r)
        clock := db.clock + 1 }

/-- Insert into a list kept sorted by strictly descending key. -/
def insertDesc {α : Type} (f : α → ℕ) (a : α) : List α → List α
  | [] => [a]
  | b :: bs => if f b ≤ f a then a :: b :: bs else b :: insertDesc f a bs

/-- `ORDER BY key DESC` (insertion sort; ties keep the later row
first, immaterial here since `fetched_at` keys are distinct). -/
def sortDesc {α : Type} (f : α → ℕ) : List α → List α
  | [] => []
  | a :: as => insertDesc f a (sortDesc f as)

/-- Projection returned by the price-history query. -/
structure HistRow where
  price_usd : ℚ
  change_24h_pct : Option ℚ
  volatility_24h : Option ℚ
  fear_greed_index : Option ℤ
  fetched_at : ℕ
deriving Repr, DecidableEq, Inhabited

/-- `AgentMemory.get_price_history`: the selected columns of the
`limit` most recent `market_data` rows for the token, newest first. -/
def get_price_history (db : DB) (token_id : String) (limit : ℕ := 10) :
    List HistRow :=
  ((sortDesc (fun r => r.fetched_at)
      (db.market_data.filter (fun r => r.token_id = token_id))).take
    limit).map (fun r =>
      { price_usd := r.price_usd
        change_24h_pct := r.change_24h_pct
        volatility_24h := r.volatility_24h
        fear_greed_index := r.fear_greed_index
        fetched_at := r.fetched_at })

-- ─── Market agent ────────────────────────────────────────────────────

/-- Modelled from the spec: `COINGECKO_X402_BASE` is imported by
market_agent.py from x402_client.py but is absent from the copy of
x402_client.py under src/; per the spec (§4.1, live variant) it is the
base URL of the x402-enabled market-data provider. -/
def COINGECKO_X402_BASE : String := "https://api.coingecko.com/api/v3"

/-- Modelled from the spec: `X402Client.is_live` is used by
market_agent.py but is absent from the copy of x402_client.py under
src/; per the spec (§2, §4.1) the client exposes a live and a
simulated variant selected at construction time, and `is_live`
reports whether the live variant is selected. -/
def ClientState.is_live (s : ClientState) : Bool := s.mode = "live"

/-- Numeric coercion, raising `TypeError` on non-numeric values. -/
def asNumE (v : PyVal) : Except String ℚ := liftO v.asNum

/-- Python `f"{x:.2f}"`, abstracted over exact rationals. -/
def fmt2 (q : ℚ) : String := toString (pyRound 2 q)

/-- Python `f"{x:.4f}"`, abstracted over exact rationals. -/
def fmt4 (q : ℚ) : String := toString (pyRound 4 q)

/-- Python `f"{x:+.2f}"`, abstracted over exact rationals. -/
def fmtSigned2 (q : ℚ) : String := if 0 ≤ q then "+" ++ fmt2 q else fmt2 q

/-- `MarketAgent.__init__`'s registration of the agent in the shared
state. -/
def MarketAgent.register (aid : String) (wallet : ClientState)
    (db : DB) : DB :=
  register_agent db aid "market_monitor" (some wallet.wallet_address)
    (.dict
      [("monitored_tokens",
        .list [.str "ethereum", .str "bitcoin", .str "solana"]),
       ("alert_thresholds",
        .dict
          [("volatility_24h", .num 4),
           ("price_change_pct", .num 3),
           ("fear_greed_low", .num 25),
           ("fear_greed_high", .num 75)])])

/-- `MarketAgent._normalize_coingecko_response`. -/
def normalize_coingecko_response (ext : Ext) (token_id : String)
    (raw : PyVal) (rng clk : ℕ) : Except String (PyVal × ℕ × ℕ) := do
  let token_data ← liftO (pyGet raw token_id (.dict []))
  let price ← liftO (pyGet token_data "usd" (.num 0))
  let change_24h ← liftO (pyGet token_data "usd_24h_change" (.num 0))
  let change_pct : ℚ ←
    if price.truthy then do
      let c ← asNumE change_24h
      let p ← asNumE price
      pure (c / p * 100)
    else pure 0
  let volume ← liftO (pyGet token_data "usd_24h_vol" (.num 0))
  let market_cap ← liftO (pyGet token_data "usd_market_cap" (.num 0))
  let pq ← asNumE price
  let cq ← asNumE change_24h
  let mq ← asNumE market_cap
  let vq ← asNumE volume
  let fgi := ext.randQ rng
  let data : PyVal :=
    .dict
      [("id", .str token_id),
       ("symbol", .str (token_id.take 3)),
       ("name", .str token_id.capitalize),
       ("market_data",
        .dict
          [("current_price", .dict [("usd", .num (pyRound 2 pq))]),
           ("price_change_24h", .num (pyRound 2 cq)),
           ("price_change_percentage_24h", .num (pyRound 2 change_pct)),
           ("high_24h",
            .dict [("usd", .num (pyRound 2 (pq * (102/100))))]),
           ("low_24h",
            .dict [("usd", .num (pyRound 2 (pq * (98/100))))]),
           ("market_cap", .dict [("usd", .num (pyRound 0 mq))]),
           ("total_volume", .dict [("usd", .num (pyRound 0 vq))])]),
       ("volatility",
        .dict
          [("volatility_24h", .num (pyRound 2 (|change_pct| * (3/2)))),
           ("volatility_7d", .num (pyRound 2 (|change_pct| * 3))),
           ("fear_greed_index", .num fgi)]),
       ("timestamp", .str (ext.now clk)),
       ("x402",
        .dict
          [("paid", .bool true),
           ("cost_usdc", .num (1/100)),
           ("protocol_version", .num 2),
           ("source", .str "coingecko")])]
  Except.ok (data, rng + 1, clk + 1)

/-- The endpoint `fetch_and_store` requests, by wallet variant. -/
def fetchEndpoint (s : ClientState) (token_id : String) : String :=
  if s.is_live then
    COINGECKO_X402_BASE ++ "/simple/price?ids=" ++ token_id ++
      "&vs_currencies=usd&include_24hr_change=true" ++
      "&include_24hr_vol=true&include_market_cap=true"
  else "coingecko.com/api/v3/coins/" ++ token_id

/-- `MarketAgent.fetch_and_store`: pay for data, then (on success)
store it, log the payment and update the agent's spending state; on an
unpaid response, log a failure observation and return an error dict. -/
def fetch_and_store (ext : Ext) (env : LiveEnv) (aid token_id : String)
    (s : ClientState) (db : DB) :
    Except String (PyVal × ClientState × DB) := do
  let rs ← request ext env (fetchEndpoint s token_id) (1/100) s
  let resp := rs.1
  let s1 := rs.2
  if !resp.paid then do
    let r ← log_strategy db aid "observation"
      "FAILED: Insufficient balance for data purchase"
      (some token_id) Option.none PyVal.none
      (some ("Balance: $" ++ fmt4 s1.balance_usdc ++ ", Required: $0.01"))
      (.num 1) PyVal.none
    Except.ok
      (.dict
        [("error", .str "Payment failed"),
         ("balance", .num s1.balance_usdc)], s1, r.1)
  else do
    let norm ←
      if s1.is_live then
        normalize_coingecko_response ext token_id resp.data s1.rng s1.clk
      else Except.ok (resp.data, s1.rng, s1.clk)
    let data := norm.1
    let s2 := { s1 with rng := norm.2.1, clk := norm.2.2 }
    let st ← store_market_data db token_id data
    let receipt ← liftO resp.payment
    let lp ← log_payment st.1 receipt
    let ws := get_wallet_status s2
    let db3 ← update_agent_spending lp.1 aid
      (pyGetD ws "balance_usdc" PyVal.none)
      (pyGetD ws "total_spent_usdc" PyVal.none)
    Except.ok (data, s2, db3)

/-- `MarketAgent.analyze_and_decide`: evaluate the four decision rules
in order, logging one decision row per fired rule, and return the
decision strings. -/
def analyze_and_decide (aid token_id : String) (data : PyVal)
    (db : DB) : Except String (List String × DB) := do
  let market ← liftO (pyGet data "market_data" data)
  let vol ← liftO (pyGet data "volatility" (.dict []))
  let cp ← liftO (pyGet market "current_price" (.dict []))
  let p1 ← liftO (pyGet cp "usd" PyVal.none)
  let pf ← liftO (pyGet data "price_usd" (.num 0))
  let price := pyOr p1 pf
  let c1 ← liftO (pyGet market "price_change_percentage_24h" PyVal.none)
  let cf ← liftO (pyGet data "change_24h_pct" (.num 0))
  let change_pct := pyOr c1 cf
  let volatility ← liftO (pyGet vol "volatility_24h" (.num 0))
  let fgi ← liftO (pyGet vol "fear_greed_index" (.num 50))
  -- Rule 1: `if volatility and volatility > 4.0` (short-circuit)
  let fired1 ←
    if volatility.truthy then do
      let vq ← asNumE volatility
      pure (decide (4 < vq))
    else pure false
  let step1 ←
    if fired1 then do
      let d := "⚠️ HIGH VOLATILITY ALERT: " ++ token_id.toUpper ++
        " volatility at " ++ pyStr volatility ++ "% (threshold: 4%)"
      let r ← log_strategy db aid "alert" d (some token_id)
        (some "volatility_24h") volatility
        (some ("24h volatility exceeds threshold. " ++
          "Consider reducing position size or hedging."))
        (.num (85/100))
        (.dict [("price", price), ("change_pct", change_pct)])
      pure ([d], r.1)
    else pure (([] : List String), db)
  -- Rule 2: `abs(change_pct) > 3.0` (the abs is always evaluated)
  let cq ← asNumE change_pct
  let step2 ←
    if 3 < |cq| then do
      let pq ← asNumE price
      let direction := if 0 < cq then "📈 UP" else "📉 DOWN"
      let d := direction ++ ": " ++ token_id.toUpper ++ " moved " ++
        fmtSigned2 cq ++ "% in 24h ($" ++ fmt2 pq ++ ")"
      let r ← log_strategy step1.2 aid "alert" d (some token_id)
        (some "price_change_24h") change_pct
        (some ("Price change exceeds ±3% threshold. Current: $" ++
          fmt2 pq))
        (.num (9/10))
        (.dict [("volatility", volatility), ("fgi", fgi)])
      pure (step1.1 ++ [d], r.1)
    else pure step1
  -- Rule 3: `if fgi and (fgi < 25 or fgi > 75)` (short-circuit)
  let fired3 ←
    if fgi.truthy then do
      let fq ← asNumE fgi
      pure (decide (fq < 25) || decide (75 < fq))
    else pure false
  let step3 ←
    if fired3 then do
      let fq ← asNumE fgi
      let sentiment :=
        if fq < 25 then "😨 EXTREME FEAR" else "🤑 EXTREME GREED"
      let d := sentiment ++ ": Fear & Greed Index at " ++ pyStr fgi ++
        " for " ++ token_id.toUpper
      let action :=
        if fq < 25 then "Potential buying opportunity (contrarian)"
        else "Consider taking profits"
      let r ← log_strategy step2.2 aid "recommendation" d
        (some token_id) (some "fear_greed_index") fgi (some action)
        (.num (7/10)) (.dict [("price", price)])
      pure (step2.1 ++ [d], r.1)
    else pure step2
  -- Rule 4: normal observation when no rule fired
  if step3.1.isEmpty then do
    let pq ← asNumE price
    let d := "✅ NORMAL: " ++ token_id.toUpper ++ " at $" ++ fmt2 pq ++
      " (" ++ fmtSigned2 cq ++ "%), volatility " ++ pyStr volatility ++
      "%"
    let r ← log_strategy step3.2 aid "observation" d (some token_id)
      (some "routine_check") price
      (some "All metrics within normal ranges. No action required.")
      (.num (19/20)) PyVal.none
    Except.ok ([d], r.1)
  else Except.ok step3

-- ─── Claim-support definitions ───────────────────────────────────────

/-- The client state tracked by the spec's invariants: balance, total
spent, payment counter and ledger (draw counters are model artifacts). -/
def LedgerEq (s' s : ClientState) : Prop :=
  s'.balance_usdc = s.balance_usdc ∧ s'.total_spent = s.total_spent ∧
    s'.payment_count = s.payment_count ∧ s'.payments = s.payments

/-- Whether a result payload is a dict carrying an "error" key. -/
def hasErrorKey (d : PyVal) : Bool :=
  match d with
  | .dict es => (pyLookup es "error").isSome
  | _ => false

/-- Whether a computation raised an uncaught exception. -/
def isErr {α : Type} : Except String α → Bool
  | Except.error _ => true
  | Except.ok _ => false

/-- Ledger-consistency invariant: the payment counter counts the
receipts and the spent total is the sum of their amounts. -/
def LedgerConsistent (s : ClientState) : Prop :=
  s.payment_count = s.payments.length ∧
    s.total_spent = (s.payments.map (fun r => r.amount_usdc)).sum

/-- Where a freshly recorded transaction id can come from: an entropy
draw at an index not yet consumed, or a `txHash` binding in a decoded
settlement header. -/
def TxFrom (ext : Ext) (env : LiveEnv) (s : ClientState)
    (tx : PyVal) : Prop :=
  (∃ i, s.rng ≤ i ∧ tx = PyVal.str ("0x" ++ ext.rand i)) ∨
  (∃ h st es v, env.decodeSettleHeader h = some st ∧
    st = PyVal.dict es ∧ pyLookup es "txHash" = some v ∧ tx = v)

/-- Freshness of the transaction-id sources with respect to a ledger:
upcoming entropy draws and any server-supplied settlement hash do not
collide with already-recorded transaction ids. -/
def FreshTxSource (ext : Ext) (env : LiveEnv) (s : ClientState) : Prop :=
  (∀ i, s.rng ≤ i →
    PyVal.str ("0x" ++ ext.rand i) ∉ s.payments.map (fun p => p.tx_id)) ∧
  (∀ h st es v, env.decodeSettleHeader h = some st →
    st = PyVal.dict es → pyLookup es "txHash" = some v →
    v ∉ s.payments.map (fun p => p.tx_id))

/-- The client state after one `request` call (the object keeps its
previous ledger state when the call raises: every raising path aborts
before `_record_payment`). -/
def requestStep (ext : Ext) (env : LiveEnv) (endpoint : String)
    (cost : ℚ) (s : ClientState) : ClientState :=
  match request ext env endpoint cost s with
  | Except.ok p => p.2
  | Except.error _ => s

/-- The client state after a sequence of `request` calls. -/
def runRequests (ext : Ext) :
    List (LiveEnv × String × ℚ) → ClientState → ClientState
  | [], s => s
  | op :: ops, s =>
    runRequests ext ops (requestStep ext op.1 op.2.1 op.2.2 s)

/-- Decision rows appended between two store states. -/
def newRows (db db' : DB) : List StrategyRow :=
  db'.strategy_log.drop db.strategy_log.length

/-- An observation dict with the four numeric signals the decision
rules consume. -/
def mkObs (price chg vola fgi : ℚ) : PyVal :=
  .dict
    [("market_data",
      .dict
        [("current_price", .dict [("usd", .num price)]),
         ("price_change_percentage_24h", .num chg)]),
     ("volatility",
      .dict
        [("volatility_24h", .num vola),
         ("fear_greed_index", .num fgi)])]

/-- The price value `store_market_data` extracts from an observation
dict and hands to the INSERT (same extraction as in the source). -/
def obsPrice (data : PyVal) : Option PyVal := do
  let market ← pyGet data "market_data" data
  let cp ← pyGet market "current_price" (.dict [])
  let p1 ← pyGet cp "usd" PyVal.none
  let pf ← pyGet data "price_usd" (.num 0)
  some (pyOr p1 pf)

/-- Number of `agent_state` rows carrying a given agent id. -/
def countAgentRows (db : DB) (aid : String) : ℕ :=
  (db.agent_state.filter (fun r => r.agent_id = aid)).length

/-- A concrete external world whose entropy stream is injective
(index `n` is drawn as a string of `n` letters). -/
def extInj : Ext :=
  { rand := fun n => String.mk (List.replicate n 'a')
    randQ := fun _ => 0
    now := fun _ => "t"
    epoch := fun _ => 0 }

/-- A concrete live environment: the network is down. -/
def envDown : LiveEnv :=
  { first := Except.error "connection refused"
    second := fun _ => Except.error "connection refused"
    decodeReqHeader := fun _ => Option.none
    decodeSettleHeader := fun _ => Option.none
    encodePayload := fun _ => "" }

/-- A fresh simulation-mode client over the injective stream. -/
def clientSim0 : ClientState :=
  X402Client.init extInj "base" "simulation" DEFAULT_FACILITATOR_URL

-- ─── Theorems ────────────────────────────────────────────────────────

/-- Touching status/heartbeat of the rows with a given id does not
change how many rows carry that id. -/
theorem touch_preserves_count (l : List AgentRow) (aid : String)
    (c : ℕ) :
    ((l.map (fun r =>
        if r.agent_id = aid then
          { r with status := "active", last_heartbeat := c }
        else r)).filter (fun r => r.agent_id = aid)).length =
      ((l.filter (fun r => r.agent_id = aid))).length := by
  induction l with
  | nil => rfl
  | cons hd tl ih =>
    by_cases h : hd.agent_id = aid <;>
      simp [h, List.filter, ih]

/-- After `register_agent`, the id has one row if it was absent, and
its row count is unchanged otherwise. -/
theorem register_agent_count (db : DB) (aid ty : String)
    (w : Option String) (cfg : PyVal) :
    countAgentRows (register_agent db aid ty w cfg) aid =
      max (countAgentRows db aid) 1 := by
  unfold register_agent countAgentRows
  by_cases h : db.agent_state.any (fun r => decide (r.agent_id = aid)) = true
  · simp only [h, if_true]
    rw [touch_preserves_count]
    have h1 : 1 ≤ (db.agent_state.filter (fun r => r.agent_id = aid)).length := by
      rcases List.any_eq_true.mp h with ⟨r, hr, hid⟩
      have hm : r ∈ db.agent_state.filter (fun r => r.agent_id = aid) :=
        List.mem_filter.mpr ⟨hr, hid⟩
      have := List.length_pos.mpr (List.ne_nil_of_mem hm)
      omega
    omega
  · simp only [h, if_false]
    rw [Bool.not_eq_true] at h
    have hnone : db.agent_state.filter (fun r => decide (r.agent_id = aid)) = [] := by
      rw [List.filter_eq_nil_iff]
      intro r hr
      simpa using List.any_eq_false.mp h r hr
    have hcount : (db.agent_state.filter (fun r => decide (r.agent_id = aid))).length = 0 := by
      rw [hnone]; rfl
    simp [List.filter_append, hnone, List.filter, hcount]

/-- An id with at least one row is seen by the duplicate-key check. -/
theorem any_of_countAgentRows (db : DB) (aid : String)
    (h : 1 ≤ countAgentRows db aid) :
    db.agent_state.any (fun r => decide (r.agent_id = aid)) = true := by
  unfold countAgentRows at h
  have hpos :
      0 < (db.agent_state.filter (fun r => decide (r.agent_id = aid))).length := by
    omega
  rcases List.exists_mem_of_length_pos hpos with ⟨r, hr⟩
  rcases List.mem_filter.mp hr with ⟨hmem, hid⟩
  exact List.any_eq_true.mpr ⟨r, hmem, hid⟩

/-- C8: `register_agent` is an idempotent upsert keyed by agent id:
a first call gives the id exactly one row when it was absent (and
leaves its row count unchanged otherwise); a repeated call with the
same id creates no second row and leaves the table size unchanged,
and every row of that id after the repeated call is a row of the
previous state with only its status set to active and its heartbeat
refreshed — agent_type, wallet_address, config, balance and
total_spent are untouched. -/
theorem register_agent_idempotent_upsert
    (db : DB) (aid ty ty' : String) (w w' : Option String)
    (cfg cfg' : PyVal) :
    countAgentRows (register_agent db aid ty w cfg) aid =
      max (countAgentRows db aid) 1 ∧
    countAgentRows
        (register_agent (register_agent db aid ty w cfg) aid ty' w' cfg')
        aid =
      countAgentRows (register_agent db aid ty w cfg) aid ∧
    (register_agent (register_agent db aid ty w cfg) aid ty' w'
        cfg').agent_state.length =
      (register_agent db aid ty w cfg).agent_state.length ∧
    ∀ r ∈ (register_agent (register_agent db aid ty w cfg) aid ty' w'
        cfg').agent_state,
      r.agent_id = aid →
      ∃ r1 ∈ (register_agent db aid ty w cfg).agent_state,
        r1.agent_id = aid ∧ r.agent_type = r1.agent_type ∧
        r.wallet_address = r1.wallet_address ∧ r.config = r1.config ∧
        r.balance_usdc = r1.balance_usdc ∧
        r.total_spent_usdc = r1.total_spent_usdc ∧
        r.status = "active" ∧
        r.last_heartbeat = (register_agent db aid ty w cfg).clock := by
  have hc1 : countAgentRows (register_agent db aid ty w cfg) aid =
      max (countAgentRows db aid) 1 :=
    register_agent_count db aid ty w cfg
  have hge : 1 ≤ countAgentRows (register_agent db aid ty w cfg) aid := by
    rw [hc1]; exact le_max_right _ _
  have hany := any_of_countAgentRows _ _ hge
  refine ⟨hc1, ?_, ?_, ?_⟩
  · rw [register_agent_count]
    omega
  · conv_lhs => rw [register_agent]
    rw [if_pos hany]
    exact List.length_map _ _
  · intro r hr hid
    conv at hr => rw [register_agent]
    rw [if_pos hany] at hr
    rcases List.mem_map.mp hr with ⟨r1, hr1, rfl⟩
    by_cases hcase : r1.agent_id = aid
    · refine ⟨r1, hr1, hcase, ?_⟩
      simp [hcase]
    · rw [if_neg hcase] at hid
      exact absurd hid hcase

/-- Inserting a row with the strictly largest key sorts to the front. -/
theorem sortDesc_append_max {α : Type} (f : α → ℕ) (a : α) :
    ∀ l : List α, (∀ x ∈ l, f x < f a) →
      sortDesc f (l ++ [a]) = a :: sortDesc f l
  | [], _ => rfl
  | x :: l, h => by
    have hx : f x < f a := h x (by simp)
    have ih := sortDesc_append_max f a l (fun y hy => h y (by simp [hy]))
    show insertDesc f x (sortDesc f (l ++ [a])) =
      a :: insertDesc f x (sortDesc f l)
    rw [ih]
    simp only [insertDesc]
    rw [if_neg (by omega)]

theorem liftO_some {α : Type} (a : α) : liftO (some a) = Except.ok a := rfl

theorem liftO_none {α : Type} :
    liftO (Option.none : Option α) = Except.error "uncaught exception" := rfl

theorem except_bind_ok {α β : Type} (a : α) (f : α → Except String β) :
    (Except.ok a >>= f) = f a := rfl

theorem except_bind_error {α β : Type} (e : String)
    (f : α → Except String β) :
    ((Except.error e : Except String α) >>= f) = Except.error e := rfl

/-- Shape of a successful `store_market_data`: exactly one row is
appended, for the given token, stamped with the store clock, and its
`price_usd` is the extracted price quantized to `DECIMAL(20,2)`. -/
theorem store_market_data_shape (db : DB) (t : String) (data : PyVal)
    (db' : DB) (i : ℕ)
    (hstore : store_market_data db t data = Except.ok (db', i)) :
    ∃ row : MarketRow,
      db'.market_data = db.market_data ++ [row] ∧
      row.token_id = t ∧ row.fetched_at = db.clock ∧
      db'.payment_log = db.payment_log ∧
      db'.strategy_log = db.strategy_log ∧
      db'.agent_state = db.agent_state ∧
      (∀ q, obsPrice data = some (PyVal.num q) →
        row.price_usd = decQuant 2 q) := by
  simp only [store_market_data] at hstore
  cases h1 : pyGet data "market_data" data with
  | none => rw [h1] at hstore; simp [liftO_none, except_bind_error] at hstore
  | some market =>
  rw [h1] at hstore
  simp only [liftO_some, except_bind_ok] at hstore
  cases h2 : pyGet market "current_price" (.dict []) with
  | none => rw [h2] at hstore; simp [liftO_none, except_bind_error] at hstore
  | some cp =>
  rw [h2] at hstore
  simp only [liftO_some, except_bind_ok] at hstore
  cases h3 : pyGet cp "usd" PyVal.none with
  | none => rw [h3] at hstore; simp [liftO_none, except_bind_error] at hstore
  | some p1 =>
  rw [h3] at hstore
  simp only [liftO_some, except_bind_ok] at hstore
  cases h4 : pyGet data "price_usd" (.num 0) with
  | none => rw [h4] at hstore; simp [liftO_none, except_bind_error] at hstore
  | some pf =>
  rw [h4] at hstore
  simp only [liftO_some, except_bind_ok] at hstore
  cases h5 : pyGet market "price_change_percentage_24h" PyVal.none with
  | none => rw [h5] at hstore; simp [liftO_none, except_bind_error] at hstore
  | some c1 =>
  rw [h5] at hstore
  simp only [liftO_some, except_bind_ok] at hstore
  cases h6 : pyGet data "change_24h_pct" (.num 0) with
  | none => rw [h6] at hstore; simp [liftO_none, except_bind_error] at hstore
  | some cf =>
  rw [h6] at hstore
  simp only [liftO_some, except_bind_ok] at hstore
  cases h7 : pyGet market "total_volume" (.dict []) with
  | none => rw [h7] at hstore; simp [liftO_none, except_bind_error] at hstore
  | some tv =>
  rw [h7] at hstore
  simp only [liftO_some, except_bind_ok] at hstore
  cases h8 : pyGet tv "usd" PyVal.none with
  | none => rw [h8] at hstore; simp [liftO_none, except_bind_error] at hstore
  | some v1 =>
  rw [h8] at hstore
  simp only [liftO_some, except_bind_ok] at hstore
  cases h9 : pyGet data "volume_24h" (.num 0) with
  | none => rw [h9] at hstore; simp [liftO_none, except_bind_error] at hstore
  | some vf =>
  rw [h9] at hstore
  simp only [liftO_some, except_bind_ok] at hstore
  cases h10 : pyGet data "volatility" (.dict []) with
  | none => rw [h10] at hstore; simp [liftO_none, except_bind_error] at hstore
  | some volDict =>
  rw [h10] at hstore
  simp only [liftO_some, except_bind_ok] at hstore
  cases h11 : pyGet volDict "volatility_24h" PyVal.none with
  | none => rw [h11] at hstore; simp [liftO_none, except_bind_error] at hstore
  | some volat =>
  rw [h11] at hstore
  simp only [liftO_some, except_bind_ok] at hstore
  cases h13 : pyGet volDict "fear_greed_index" PyVal.none with
  | none => rw [h13] at hstore; simp [liftO_none, except_bind_error] at hstore
  | some fgi =>
  rw [h13] at hstore
  simp only [liftO_some, except_bind_ok] at hstore
  cases h14 : sqlDec 2 (pyOr p1 pf) with
  | none => rw [h14] at hstore; simp [liftO_none, except_bind_error] at hstore
  | some priceOpt =>
  rw [h14] at hstore
  simp only [liftO_some, except_bind_ok] at hstore
  cases h15 : priceOpt with
  | none => rw [h15] at hstore; simp [liftO_none, except_bind_error] at hstore
  | some priceQ =>
  rw [h15] at hstore
  simp only [liftO_some, except_bind_ok] at hstore
  cases h16 : sqlDec 2 (pyOr c1 cf) with
  | none => rw [h16] at hstore; simp [liftO_none, except_bind_error] at hstore
  | some changeN =>
  rw [h16] at hstore
  simp only [liftO_some, except_bind_ok] at hstore
  cases h17 : sqlDec 0 (pyOr v1 vf) with
  | none => rw [h17] at hstore; simp [liftO_none, except_bind_error] at hstore
  | some volumeN =>
  rw [h17] at hstore
  simp only [liftO_some, except_bind_ok] at hstore
  cases h18 : sqlDec 2 volat with
  | none => rw [h18] at hstore; simp [liftO_none, except_bind_error] at hstore
  | some volatN =>
  rw [h18] at hstore
  simp only [liftO_some, except_bind_ok] at hstore
  cases h19 : sqlInt fgi with
  | none => rw [h19] at hstore; simp [liftO_none, except_bind_error] at hstore
  | some fgiN =>
  rw [h19] at hstore
  simp only [liftO_some, except_bind_ok] at hstore
  cases hstore
  refine ⟨_, rfl, rfl, rfl, rfl, rfl, rfl, ?_⟩
  intro q hq
  have hobs : obsPrice data = some (pyOr p1 pf) := by
    simp [obsPrice, h1, h2, h3, h4]
  rw [hobs] at hq
  have hpq : pyOr p1 pf = PyVal.num q := by
    injection hq
  rw [hpq] at h14
  simp [sqlDec] at h14
  rw [← h14] at h15
  injection h15 with h15'
  exact h15'.symm

/-- C7 (amended): a stored observation's price, read back as the most
recent history row for that token, equals the written price quantized
to the `DECIMAL(20, 2)` column — hence equals the written value
exactly whenever that value carries at most two decimal places. -/
theorem stored_price_roundtrip (db : DB) (t : String) (data : PyVal)
    (db' : DB) (i lim : ℕ) (q : ℚ)
    (hstore : store_market_data db t data = Except.ok (db', i))
    (hprice : obsPrice data = some (PyVal.num q))
    (hq : decQuant 2 q = q)
    (hwf : ∀ r ∈ db.market_data, r.fetched_at < db.clock)
    (hlim : 1 ≤ lim) :
    ∃ hd rest, get_price_history db' t lim = hd :: rest ∧
      hd.price_usd = q := by
  obtain ⟨row, hmd, htok, hfa, _, _, _, hpq⟩ :=
    store_market_data_shape db t data db' i hstore
  have hrowp : row.price_usd = q := by rw [hpq q hprice, hq]
  unfold get_price_history
  rw [hmd, List.filter_append]
  have hfrow :
      List.filter (fun r => decide (r.token_id = t)) [row] = [row] := by
    simp [htok]
  rw [hfrow]
  have hsort :
      sortDesc (fun r : MarketRow => r.fetched_at)
        ((db.market_data.filter (fun r => decide (r.token_id = t))) ++
          [row]) =
        row :: sortDesc (fun r : MarketRow => r.fetched_at)
          (db.market_data.filter (fun r => decide (r.token_id = t))) := by
    apply sortDesc_append_max
    intro x hx
    rw [hfa]
    exact hwf x (List.mem_filter.mp hx).1
  rw [hsort]
  obtain ⟨m, rfl⟩ : ∃ m, lim = m + 1 := ⟨lim - 1, by omega⟩
  refine
    ⟨{ price_usd := row.price_usd, change_24h_pct := row.change_24h_pct,
       volatility_24h := row.volatility_24h,
       fear_greed_index := row.fear_greed_index,
       fetched_at := row.fetched_at },
     List.map (fun r : MarketRow =>
       ({ price_usd := r.price_usd, change_24h_pct := r.change_24h_pct,
          volatility_24h := r.volatility_24h,
          fear_greed_index := r.fear_greed_index,
          fetched_at := r.fetched_at } : HistRow))
       (List.take m (sortDesc (fun r => r.fetched_at)
         (db.market_data.filter (fun r => decide (r.token_id = t))))),
     ?_, hrowp⟩
  simp

/-- C7 (counterexample): storing an observation whose price is 0.001
reads back as 0.00 — the `DECIMAL(20, 2)` column quantizes, so the
read-back value differs from the written one. -/
theorem stored_price_roundtrip_cex :
    obsPrice (PyVal.dict [("price_usd", PyVal.num (1/1000))]) =
      some (PyVal.num (1/1000)) ∧
    ((store_market_data DB.init "eth"
        (PyVal.dict [("price_usd", PyVal.num (1/1000))])).toOption.map
      (fun p => (get_price_history p.1 "eth" 10).map
        (fun h => h.price_usd))) = some [0] ∧
    (1 : ℚ)/1000 ≠ 0 := by
  refine ⟨?_, ?_, by norm_num⟩
  · simp [obsPrice, pyGet, pyLookup, pyOr, PyVal.truthy]
  · have h1 : decQuant 2 ((1:ℚ)/1000) = 0 := by
      norm_num [decQuant, roundHalfAway, Int.floor_eq_iff]
    have h2 : decQuant 2 (0:ℚ) = 0 := by
      norm_num [decQuant, roundHalfAway, Int.floor_eq_iff]
    have h3 : decQuant 0 (0:ℚ) = 0 := by
      norm_num [decQuant, roundHalfAway, Int.floor_eq_iff]
    simp [store_market_data, liftO, pyGet, pyLookup, pyOr, PyVal.truthy,
      sqlDec, sqlInt, DB.init, get_price_history, sortDesc, insertDesc,
      h1, h2, h3, Except.toOption, except_bind_ok, except_bind_error]
    norm_num [decQuant, roundHalfAway, Int.floor_eq_iff]

theorem stored_price_roundtrip_witness :
    ∃ db' i hd rest,
      store_market_data DB.init "eth"
          (PyVal.dict [("price_usd", PyVal.num 2)]) =
        Except.ok (db', i) ∧
      get_price_history db' "eth" 10 = hd :: rest ∧
      hd.price_usd = 2 := by
  have hq2 : decQuant 2 (2:ℚ) = 2 := by
    norm_num [decQuant, roundHalfAway, Int.floor_eq_iff]
  have h2 : decQuant 2 (0:ℚ) = 0 := by
    norm_num [decQuant, roundHalfAway, Int.floor_eq_iff]
  have h3 : decQuant 0 (0:ℚ) = 0 := by
    norm_num [decQuant, roundHalfAway, Int.floor_eq_iff]
  have hs : store_market_data DB.init "eth"
      (PyVal.dict [("price_usd", PyVal.num 2)]) =
      Except.ok
        ({ market_data :=
            [{ id := 1, token_id := "eth", price_usd := 2,
               change_24h_pct := some 0, volume_24h := some 0,
               volatility_24h := Option.none,
               fear_greed_index := Option.none,
               raw_data := PyVal.dict [("price_usd", PyVal.num 2)],
               source := "coingecko_x402", fetched_at := 0 }]
           payment_log := []
           strategy_log := []
           agent_state := []
           next_market_id := 2
           next_payment_id := 1
           next_strategy_id := 1
           clock := 1 }, 1) := by
    simp [store_market_data, liftO, pyGet, pyLookup, pyOr, PyVal.truthy,
      sqlDec, sqlInt, DB.init, hq2, h2, h3, except_bind_ok,
      except_bind_error]
  obtain ⟨hd, rest, hh, hp⟩ :=
    stored_price_roundtrip DB.init "eth"
      (PyVal.dict [("price_usd", PyVal.num 2)]) _ 1 10 2 hs
      (by simp [obsPrice, pyGet, pyLookup, pyOr, PyVal.truthy]) hq2
      (by simp [DB.init]) (by norm_num)
  exact ⟨_, 1, hd, rest, hs, hh, hp⟩

/-- The simulated flow with insufficient balance: a 402
insufficient-funds result carrying required/available amounts, and
the state returned untouched. -/
theorem request_simulated_insufficient (ext : Ext) (ep : String)
    (cost : ℚ) (s : ClientState) (h : s.balance_usdc < cost) :
    request_simulated ext ep cost s =
      ({ status_code := 402
         data := .dict
           [("error", .str "Insufficient USDC balance"),
            ("required", .num cost),
            ("balance", .num s.balance_usdc)] }, s) := by
  rw [request_simulated, if_pos h]

/-- The simulated flow with sufficient balance: one receipt for
exactly the cost, a fresh entropy transaction id, and the tracked
fields updated by exactly the cost / one receipt. -/
theorem request_simulated_success (ext : Ext) (ep : String)
    (cost : ℚ) (s : ClientState) (h : ¬ s.balance_usdc < cost) :
    ∃ rc : PaymentReceipt,
      (request_simulated ext ep cost s).1.status_code = 200 ∧
      (request_simulated ext ep cost s).1.paid = true ∧
      (request_simulated ext ep cost s).1.payment = some rc ∧
      (request_simulated ext ep cost s).2.balance_usdc =
        s.balance_usdc - cost ∧
      (request_simulated ext ep cost s).2.total_spent =
        s.total_spent + cost ∧
      (request_simulated ext ep cost s).2.payment_count =
        s.payment_count + 1 ∧
      (request_simulated ext ep cost s).2.payments = s.payments ++ [rc] ∧
      (request_simulated ext ep cost s).2.rng = s.rng + 13 ∧
      (request_simulated ext ep cost s).2.clk = s.clk + 3 ∧
      (request_simulated ext ep cost s).2.wallet_address =
        s.wallet_address ∧
      (request_simulated ext ep cost s).2.network = s.network ∧
      (request_simulated ext ep cost s).2.network_id = s.network_id ∧
      (request_simulated ext ep cost s).2.mode = s.mode ∧
      rc.tx_id = PyVal.str ("0x" ++ ext.rand (s.rng + 3)) ∧
      rc.amount_usdc = cost := by
  refine
    ⟨{ tx_id := .str ("0x" ++ ext.rand (s.rng + 3))
       amount_usdc := cost
       payer := s.wallet_address
       payee := .str ("0x" ++ ext.rand s.rng)
       network := s.network
       endpoint := ep
       timestamp := ext.now (s.clk + 1)
       status := "confirmed"
       gas_fee := 0
       settlement_response := some (.dict
         [("txHash", .str ("0x" ++ ext.rand (s.rng + 3))),
          ("network", .str s.network_id),
          ("success", .bool true),
          ("payer", .str s.wallet_address),
          ("payee", .str ("0x" ++ ext.rand s.rng)),
          ("amount", .str (toString (pyInt (cost * 1000000)))),
          ("token", .str USDC_BASE)]) },
     ?_, ?_, ?_, ?_, ?_, ?_, ?_, ?_, ?_, ?_, ?_, ?_, ?_, ?_, ?_⟩
  all_goals first
  | rfl
  | (rw [request_simulated, if_neg h]; rfl)

/-- A successful signing advances the draw counter by exactly the two
draws (nonce, signature) and reads the clock once. -/
theorem sign_payment_counters (ext : Ext) (addr : String) (pr : PyVal)
    (rng clk : ℕ) (p : PyVal) (rng' clk' : ℕ)
    (h : sign_payment ext addr pr rng clk = Except.ok (p, rng', clk')) :
    rng' = rng + 2 ∧ clk' = clk + 1 := by
  simp only [sign_payment] at h
  cases h1 : pyGet pr "maxAmountRequired" (.str "0") with
  | none => rw [h1] at h; simp [except_bind_error] at h
  | some amount =>
  rw [h1] at h
  simp only [except_bind_ok] at h
  cases h2 : pyGet pr "resource" (.dict []) with
  | none => rw [h2] at h; simp [except_bind_error] at h
  | some resource =>
  rw [h2] at h
  simp only [except_bind_ok] at h
  cases h3 : pyGet resource "payTo" (.str "") with
  | none => rw [h3] at h; simp [except_bind_error] at h
  | some pay_to =>
  rw [h3] at h
  simp only [except_bind_ok] at h
  cases h4 : pyGet pr "network" (.str BASE_MAINNET) with
  | none => rw [h4] at h; simp [except_bind_error] at h
  | some network =>
  rw [h4] at h
  simp only [except_bind_ok, Except.ok.injEq, Prod.mk.injEq] at h
  exact ⟨h.2.1.symm, h.2.2.symm⟩

/-- Outcome analysis of one live request that did not raise: a result
with `paid = false` leaves the tracked client state untouched and (when
it is not a plain 200) carries an "error" payload; a result with
`paid = true` comes from exactly one `_record_payment` call — one
receipt for exactly the cost whose transaction id is a fresh entropy
draw or a server-supplied settlement hash. -/
theorem request_live_cases (ext : Ext) (env : LiveEnv) (url : String)
    (cost : ℚ) (s : ClientState) (r : X402Response) (s' : ClientState)
    (hr : request_live ext env url cost s = Except.ok (r, s')) :
    (r.paid = false → LedgerEq s' s ∧
      (r.status_code ≠ 200 → hasErrorKey r.data = true)) ∧
    (r.paid = true → ∃ rc : PaymentReceipt,
      r.payment = some rc ∧ rc.amount_usdc = cost ∧
      TxFrom ext env s rc.tx_id ∧
      s'.balance_usdc = s.balance_usdc - cost ∧
      s'.total_spent = s.total_spent + cost ∧
      s'.payment_count = s.payment_count + 1 ∧
      s'.payments = s.payments ++ [rc]) := by
  unfold request_live at hr
  cases hfirst : env.first with
  | error e =>
    rw [hfirst] at hr
    simp only [Except.ok.injEq, Prod.mk.injEq] at hr
    obtain ⟨hr1, hr2⟩ := hr
    subst hr1; subst hr2
    refine ⟨fun _ => ⟨⟨rfl, rfl, rfl, rfl⟩, fun _ => rfl⟩, fun hp => ?_⟩
    simp at hp
  | ok resp =>
  rw [hfirst] at hr
  simp only [] at hr
  by_cases h402 : resp.status_code = 402
  · rw [if_pos h402] at hr
    cases hpr : parseRequirements env resp with
    | error e => rw [hpr] at hr; exact Except.noConfusion hr
    | ok out =>
    rw [hpr] at hr
    cases out with
    | failResult =>
      simp only [Except.ok.injEq, Prod.mk.injEq] at hr
      obtain ⟨hr1, hr2⟩ := hr
      subst hr1; subst hr2
      refine ⟨fun _ => ⟨⟨rfl, rfl, rfl, rfl⟩, fun _ => rfl⟩, fun hp => ?_⟩
      simp at hp
    | reqs prRaw =>
    simp only [] at hr
    cases hsel : selectRequirements prRaw with
    | error e => rw [hsel] at hr; exact Except.noConfusion hr
    | ok pr =>
    rw [hsel] at hr
    simp only [] at hr
    cases hsign : sign_payment ext s.wallet_address pr s.rng s.clk with
    | error e => rw [hsign] at hr; exact Except.noConfusion hr
    | ok sg =>
    obtain ⟨payload, rng1, clk1⟩ := sg
    obtain ⟨hrng1, hclk1⟩ :=
      sign_payment_counters ext s.wallet_address pr s.rng s.clk
        payload rng1 clk1 hsign
    rw [hsign] at hr
    simp only [] at hr
    cases hsecond : env.second (env.encodePayload payload) with
    | error e =>
      rw [hsecond] at hr
      simp only [Except.ok.injEq, Prod.mk.injEq] at hr
      obtain ⟨hr1, hr2⟩ := hr
      subst hr1; subst hr2
      refine ⟨fun _ => ⟨⟨rfl, rfl, rfl, rfl⟩, fun _ => rfl⟩, fun hp => ?_⟩
      simp at hp
    | ok resp2 =>
    rw [hsecond] at hr
    simp only [] at hr
    by_cases h200 : resp2.status_code = 200
    · rw [if_pos h200] at hr
      have hfresh :
          ∀ tx : PyVal,
            tx = PyVal.str ("0x" ++ ext.rand rng1) →
            TxFrom ext env s tx := by
        intro tx htx
        exact Or.inl ⟨rng1, by omega, htx⟩
      cases hsh : resp2.settle_header with
      | none =>
        rw [hsh] at hr
        simp only [Except.ok.injEq, Prod.mk.injEq] at hr
        obtain ⟨hr1, hr2⟩ := hr
        subst hr1; subst hr2
        refine ⟨fun hp => ?_, fun _ => ?_⟩
        · simp at hp
        · refine ⟨_, rfl, rfl, hfresh _ rfl, ?_, ?_, ?_, ?_⟩ <;>
            simp [record_payment]
      | some sh =>
      rw [hsh] at hr
      simp only [] at hr
      cases hdec : env.decodeSettleHeader sh with
      | none =>
        rw [hdec] at hr
        simp only [Except.ok.injEq, Prod.mk.injEq] at hr
        obtain ⟨hr1, hr2⟩ := hr
        subst hr1; subst hr2
        refine ⟨fun hp => ?_, fun _ => ?_⟩
        · simp at hp
        · refine ⟨_, rfl, rfl, hfresh _ rfl, ?_, ?_, ?_, ?_⟩ <;>
            simp [record_payment]
      | some st =>
      rw [hdec] at hr
      simp only [] at hr
      by_cases htr : st.truthy = true
      · rw [if_pos htr] at hr
        cases hst : st with
        | dict es =>
          rw [hst] at hr
          simp only [pyGet] at hr
          cases hlk : pyLookup es "txHash" with
          | none =>
            rw [hlk] at hr
            simp only [Option.getD] at hr
            simp only [Except.ok.injEq, Prod.mk.injEq] at hr
            obtain ⟨hr1, hr2⟩ := hr
            subst hr1; subst hr2
            refine ⟨fun hp => ?_, fun _ => ?_⟩
            · simp at hp
            · refine ⟨_, rfl, rfl, hfresh _ rfl, ?_, ?_, ?_, ?_⟩ <;>
                simp [record_payment]
          | some v =>
            rw [hlk] at hr
            simp only [Option.getD] at hr
            simp only [Except.ok.injEq, Prod.mk.injEq] at hr
            obtain ⟨hr1, hr2⟩ := hr
            subst hr1; subst hr2
            refine ⟨fun hp => ?_, fun _ => ?_⟩
            · simp at hp
            · refine ⟨_, rfl, rfl,
                Or.inr ⟨sh, .dict es, es, v, hst ▸ hdec, rfl,
                  hlk, rfl⟩, ?_, ?_, ?_, ?_⟩ <;>
                simp [record_payment]
        | none => rw [hst] at hr; simp only [pyGet] at hr;
                  exact Except.noConfusion hr
        | bool b => rw [hst] at hr; simp only [pyGet] at hr;
                    exact Except.noConfusion hr
        | num q => rw [hst] at hr; simp only [pyGet] at hr;
                   exact Except.noConfusion hr
        | str t => rw [hst] at hr; simp only [pyGet] at hr;
                   exact Except.noConfusion hr
        | list xs => rw [hst] at hr; simp only [pyGet] at hr;
                     exact Except.noConfusion hr
      · rw [if_neg htr] at hr
        simp only [Except.ok.injEq, Prod.mk.injEq] at hr
        obtain ⟨hr1, hr2⟩ := hr
        subst hr1; subst hr2
        refine ⟨fun hp => ?_, fun _ => ?_⟩
        · simp at hp
        · refine ⟨_, rfl, rfl, hfresh _ rfl, ?_, ?_, ?_, ?_⟩ <;>
            simp [record_payment]
    · rw [if_neg h200] at hr
      simp only [Except.ok.injEq, Prod.mk.injEq] at hr
      obtain ⟨hr1, hr2⟩ := hr
      subst hr1; subst hr2
      refine ⟨fun _ => ⟨⟨rfl, rfl, rfl, rfl⟩, fun _ => rfl⟩, fun hp => ?_⟩
      simp at hp
  · rw [if_neg h402] at hr
    by_cases h200 : resp.status_code = 200
    · rw [if_pos h200] at hr
      simp only [Except.ok.injEq, Prod.mk.injEq] at hr
      obtain ⟨hr1, hr2⟩ := hr
      subst hr1; subst hr2
      refine ⟨fun _ => ⟨⟨rfl, rfl, rfl, rfl⟩, fun hne => ?_⟩, fun hp => ?_⟩
      · exact absurd rfl hne
      · simp at hp
    · rw [if_neg h200] at hr
      simp only [Except.ok.injEq, Prod.mk.injEq] at hr
      obtain ⟨hr1, hr2⟩ := hr
      subst hr1; subst hr2
      refine ⟨fun _ => ⟨⟨rfl, rfl, rfl, rfl⟩, fun _ => rfl⟩, fun hp => ?_⟩
      simp at hp

/-- Outcome analysis of one `request` call in either mode. -/
theorem request_cases (ext : Ext) (env : LiveEnv) (ep : String)
    (cost : ℚ) (s : ClientState) (r : X402Response) (s' : ClientState)
    (hr : request ext env ep cost s = Except.ok (r, s')) :
    (r.paid = false → LedgerEq s' s ∧
      (r.status_code ≠ 200 → hasErrorKey r.data = true)) ∧
    (r.paid = true → ∃ rc : PaymentReceipt,
      r.payment = some rc ∧ rc.amount_usdc = cost ∧
      TxFrom ext env s rc.tx_id ∧
      s'.balance_usdc = s.balance_usdc - cost ∧
      s'.total_spent = s.total_spent + cost ∧
      s'.payment_count = s.payment_count + 1 ∧
      s'.payments = s.payments ++ [rc]) := by
  unfold request at hr
  by_cases hdisp :
      s.mode = "live" ∨ (s.mode = "auto" ∧ ep.startsWith "http" = true)
  · rw [if_pos hdisp] at hr
    exact request_live_cases ext env ep cost s r s' hr
  · rw [if_neg hdisp] at hr
    simp only [Except.ok.injEq] at hr
    by_cases hbal : s.balance_usdc < cost
    · rw [request_simulated_insufficient ext ep cost s hbal] at hr
      rw [Prod.ext_iff] at hr
      obtain ⟨h1, h2⟩ := hr
      simp only [] at h1 h2
      subst h1; subst h2
      refine ⟨fun _ => ⟨⟨rfl, rfl, rfl, rfl⟩, fun _ => rfl⟩, fun hp => ?_⟩
      simp at hp
    · obtain ⟨rc, h1, h2, h3, h4, h5, h6, h7, h8, h9, h10, h11, h12,
        h13, h14, h15⟩ := request_simulated_success ext ep cost s hbal
      rw [Prod.ext_iff] at hr
      obtain ⟨hp1, hp2⟩ := hr
      subst hp1; subst hp2
      refine ⟨fun hp => ?_, fun _ => ?_⟩
      · rw [h2] at hp; simp at hp
      · exact ⟨rc, h3, h15, Or.inl ⟨s.rng + 3, by omega, h14⟩,
          h4, h5, h6, h7⟩

/-- C1 (amended): in the simulated flow — the non-live dispatch of
`request` — a call with available balance strictly below the cost
returns the 402 insufficient-funds result carrying the required and
available amounts, and mutates no client state (the state comes back
unchanged).  The live dispatch performs no balance check at all, so
the original per-mode claim fails there. -/
theorem insufficient_funds_no_mutation (ext : Ext) (env : LiveEnv)
    (ep : String) (cost : ℚ) (s : ClientState)
    (hmode : ¬(s.mode = "live" ∨
      (s.mode = "auto" ∧ ep.startsWith "http" = true)))
    (hbal : s.balance_usdc < cost) :
    request ext env ep cost s =
      Except.ok
        ({ status_code := 402
           data := .dict
             [("error", .str "Insufficient USDC balance"),
              ("required", .num cost),
              ("balance", .num s.balance_usdc)] }, s) := by
  unfold request
  rw [if_neg hmode, request_simulated_insufficient ext ep cost s hbal]

theorem insufficient_funds_no_mutation_witness :
    (X402Client.init extInj "base" "simulation"
      DEFAULT_FACILITATOR_URL).balance_usdc < 20 ∧
    request extInj envDown "coins/eth" 20
        (X402Client.init extInj "base" "simulation"
          DEFAULT_FACILITATOR_URL) =
      Except.ok
        ({ status_code := 402
           data := .dict
             [("error", .str "Insufficient USDC balance"),
              ("required", .num 20),
              ("balance", .num 10)] },
         X402Client.init extInj "base" "simulation"
           DEFAULT_FACILITATOR_URL) := by
  constructor
  · norm_num [X402Client.init]
  · exact insufficient_funds_no_mutation extInj envDown "coins/eth" 20
      (X402Client.init extInj "base" "simulation" DEFAULT_FACILITATOR_URL)
      (by decide) (by norm_num [X402Client.init])

/-- C1 (counterexample): in live mode with balance 0.005 < cost 0.01,
against a server that answers 402 with a decodable requirements header
and then accepts the payment, `request` pays anyway: the result is
`paid = true` and the client state is mutated (payment_count becomes 1
and the balance is debited below zero), so the claim's "holds for
every mode" is false. -/
theorem insufficient_funds_live_cex :
    (1:ℚ)/200 < 1/100 ∧
    ∃ r s',
      request extInj
        { first := Except.ok
            { status_code := 402
              payment_required_header := some "H" }
          second := fun _ => Except.ok { status_code := 200 }
          decodeReqHeader := fun _ => some (.dict [])
          decodeSettleHeader := fun _ => Option.none
          encodePayload := fun _ => "" }
        "http://x" (1/100)
        { X402Client.init extInj "base" "live" DEFAULT_FACILITATOR_URL
            with balance_usdc := 1/200 } =
        Except.ok (r, s') ∧
      r.paid = true ∧ s'.payment_count = 1 ∧
      s'.balance_usdc = 1/200 - 1/100 := by
  exact ⟨by norm_num, _, _, rfl, rfl, rfl, rfl⟩

/-- One `request` call preserves ledger consistency. -/
theorem requestStep_preserves_consistency (ext : Ext) (env : LiveEnv)
    (ep : String) (cost : ℚ) (s : ClientState)
    (h : LedgerConsistent s) :
    LedgerConsistent (requestStep ext env ep cost s) := by
  unfold requestStep
  cases hreq : request ext env ep cost s with
  | error e => exact h
  | ok p =>
    obtain ⟨r, s'⟩ := p
    obtain ⟨hfalse, htrue⟩ := request_cases ext env ep cost s r s' hreq
    cases hp : r.paid with
    | false =>
      obtain ⟨⟨hb, ht, hc, hps⟩, _⟩ := hfalse hp
      exact ⟨by rw [hc, hps]; exact h.1, by rw [ht, hps]; exact h.2⟩
    | true =>
      obtain ⟨rc, _, hamt, _, _, ht, hc, hps⟩ := htrue hp
      constructor
      · rw [hc, hps, List.length_append, h.1]; rfl
      · rw [ht, hps, h.2, List.map_append, List.sum_append]
        simp [hamt]

theorem runRequests_preserves_consistency (ext : Ext) :
    ∀ (ops : List (LiveEnv × String × ℚ)) (s : ClientState),
      LedgerConsistent s → LedgerConsistent (runRequests ext ops s)
  | [], _, h => h
  | op :: ops, s, h =>
    runRequests_preserves_consistency ext ops _
      (requestStep_preserves_consistency ext op.1 op.2.1 op.2.2 s h)

/-- C9: after any sequence of `request` calls (either mode) from a
fresh client, `payment_count` equals the number of receipts in the
ledger and `total_spent` equals the sum of their amounts. -/
theorem ledger_consistency_invariant (ext : Ext)
    (ops : List (LiveEnv × String × ℚ)) (network mode fac : String) :
    LedgerConsistent
      (runRequests ext ops (X402Client.init ext network mode fac)) :=
  runRequests_preserves_consistency ext ops _ ⟨rfl, rfl⟩

/-- C2: a call with balance ≥ cost whose response reports `paid = true`
debits the balance by exactly the cost (strictly decreasing it for a
positive cost), increases `total_spent` by exactly the cost (so it
never decreases), increments `payment_count` by one, and appends
exactly one receipt, for that cost, whose transaction id differs from
every previously recorded one (given that the entropy draws and any
server-supplied settlement hash are fresh for this ledger). -/
theorem successful_payment_effects (ext : Ext) (env : LiveEnv)
    (ep : String) (cost : ℚ) (s : ClientState) (r : X402Response)
    (s' : ClientState)
    (hcost : 0 ≤ cost) (hbal : cost ≤ s.balance_usdc)
    (hreq : request ext env ep cost s = Except.ok (r, s'))
    (hpaid : r.paid = true)
    (hfresh : FreshTxSource ext env s) :
    s'.balance_usdc = s.balance_usdc - cost ∧
    (0 < cost → s'.balance_usdc < s.balance_usdc) ∧
    s'.total_spent = s.total_spent + cost ∧
    s.total_spent ≤ s'.total_spent ∧
    s'.payment_count = s.payment_count + 1 ∧
    ∃ rc, r.payment = some rc ∧ s'.payments = s.payments ++ [rc] ∧
      rc.amount_usdc = cost ∧
      rc.tx_id ∉ s.payments.map (fun p => p.tx_id) := by
  obtain ⟨_, htrue⟩ := request_cases ext env ep cost s r s' hreq
  obtain ⟨rc, hpay, hamt, htx, hb, ht, hc, hps⟩ := htrue hpaid
  refine ⟨hb, fun hpos => by rw [hb]; linarith, ht, by rw [ht]; linarith,
    hc, rc, hpay, hps, hamt, ?_⟩
  rcases htx with ⟨i, hi, htxeq⟩ | ⟨hh, st, es, v, hdec, hst, hlk, htxeq⟩
  · rw [htxeq]; exact hfresh.1 i hi
  · rw [htxeq]; exact hfresh.2 hh st es v hdec hst hlk

theorem successful_payment_effects_witness :
    0 ≤ (1:ℚ)/100 ∧ (1:ℚ)/100 ≤ clientSim0.balance_usdc ∧
    ∃ r s',
      request extInj envDown "coins/eth" (1/100) clientSim0 =
        Except.ok (r, s') ∧ r.paid = true ∧
      s'.balance_usdc = clientSim0.balance_usdc - 1/100 ∧
      s'.payment_count = clientSim0.payment_count + 1 := by
  have hreq : request extInj envDown "coins/eth" (1/100) clientSim0 =
      Except.ok
        ((request_simulated extInj "coins/eth" (1/100) clientSim0).1,
         (request_simulated extInj "coins/eth" (1/100) clientSim0).2) := by
    unfold request
    rw [if_neg (by decide)]
  have hbal : ¬ clientSim0.balance_usdc < 1/100 := by
    norm_num [clientSim0, X402Client.init]
  obtain ⟨rc, h1, h2, _⟩ :=
    request_simulated_success extInj "coins/eth" (1/100) clientSim0 hbal
  have hfresh : FreshTxSource extInj envDown clientSim0 :=
    ⟨fun i hi => by simp [clientSim0, X402Client.init],
     fun h st es v hd hs hl => by simp [clientSim0, X402Client.init]⟩
  have h := successful_payment_effects extInj envDown "coins/eth" (1/100)
    clientSim0 _ _ (by norm_num)
    (by norm_num [clientSim0, X402Client.init]) hreq h2 hfresh
  exact ⟨by norm_num, by norm_num [clientSim0, X402Client.init],
    _, _, hreq, h2, h.1, h.2.2.2.2.1⟩

/-- C3 (amended): no caught error mutates client state, and each error
aborts only its own request: a transport failure on the first GET
returns a structured error payload carrying the underlying message
with the state untouched; every non-paid result of a live request
(server rejection included) leaves balance, total_spent, payment_count
and the ledger unchanged and, unless it is a plain 200, carries an
"error" payload; but a PAYMENT-REQUIRED header that fails base64/JSON
decoding raises an uncaught exception for that request (it is not
returned as an error result). -/
theorem live_error_taxonomy (ext : Ext) (env : LiveEnv) (url : String)
    (cost : ℚ) (s : ClientState) :
    (∀ e, env.first = Except.error e →
      request_live ext env url cost s =
        Except.ok
          ({ status_code := 0
             data := .dict
               [("error", .str ("Request failed: " ++ e))] }, s)) ∧
    (∀ r s', request_live ext env url cost s = Except.ok (r, s') →
      r.paid = false →
      LedgerEq s' s ∧
        (r.status_code ≠ 200 → hasErrorKey r.data = true)) ∧
    (∀ resp h, env.first = Except.ok resp → resp.status_code = 402 →
      resp.payment_required_header = some h →
      env.decodeReqHeader h = Option.none →
      request_live ext env url cost s =
        Except.error "ProtocolError: malformed PAYMENT-REQUIRED header") := by
  refine ⟨?_, ?_, ?_⟩
  · intro e he
    unfold request_live
    rw [he]
  · intro r s' hr hp
    exact (request_live_cases ext env url cost s r s' hr).1 hp
  · intro resp h hfirst h402 hhdr hdec
    unfold request_live
    rw [hfirst]
    simp only []
    rw [if_pos h402]
    have hpr : parseRequirements env resp =
        Except.error "ProtocolError: malformed PAYMENT-REQUIRED header" := by
      unfold parseRequirements
      rw [hhdr]
      simp only []
      rw [hdec]
    rw [hpr]

/-- C3 (counterexample): a 402 whose PAYMENT-REQUIRED header fails
base64/JSON decoding makes `request` raise (an uncaught exception),
instead of returning a structured error result as claimed. -/
theorem live_malformed_header_raises_cex :
    request extInj
      { first := Except.ok
          { status_code := 402
            payment_required_header := some "not-base64" }
        second := fun _ => Except.error "unreachable"
        decodeReqHeader := fun _ => Option.none
        decodeSettleHeader := fun _ => Option.none
        encodePayload := fun _ => "" }
      "http://x" (1/100)
      (X402Client.init extInj "base" "live" DEFAULT_FACILITATOR_URL) =
      Except.error "ProtocolError: malformed PAYMENT-REQUIRED header" :=
  rfl

theorem live_error_taxonomy_witness :
    request_live extInj envDown "http://x" (1/100)
        (X402Client.init extInj "base" "live" DEFAULT_FACILITATOR_URL) =
      Except.ok
        ({ status_code := 0
           data := .dict
             [("error",
               .str ("Request failed: " ++ "connection refused"))] },
         X402Client.init extInj "base" "live" DEFAULT_FACILITATOR_URL) ∧
    request_live extInj
        { first := Except.ok
            { status_code := 402
              payment_required_header := some "xx" }
          second := fun _ => Except.error "unreachable"
          decodeReqHeader := fun _ => Option.none
          decodeSettleHeader := fun _ => Option.none
          encodePayload := fun _ => "" }
        "http://x" (1/100)
        (X402Client.init extInj "base" "live" DEFAULT_FACILITATOR_URL) =
      Except.error "ProtocolError: malformed PAYMENT-REQUIRED header" := by
  constructor
  · exact (live_error_taxonomy extInj envDown "http://x" (1/100)
      (X402Client.init extInj "base" "live"
        DEFAULT_FACILITATOR_URL)).1 "connection refused" rfl
  · exact (live_error_taxonomy extInj _ "http://x" (1/100)
      (X402Client.init extInj "base" "live"
        DEFAULT_FACILITATOR_URL)).2.2
      { status_code := 402, payment_required_header := some "xx" } "xx"
      rfl rfl rfl rfl

/-- C10: when the wallet's request comes back unpaid, fetch_and_store
writes exactly one "observation" decision row with confidence 1.0,
returns the error dict with the current balance, and performs none of
the success-path writes: market_data, payment_log and agent_state are
untouched. -/
theorem fetch_unpaid_no_writes (ext : Ext) (env : LiveEnv)
    (aid tok : String) (s : ClientState) (db : DB) (r : X402Response)
    (s' : ClientState)
    (hreq : request ext env (fetchEndpoint s tok) (1/100) s =
      Except.ok (r, s'))
    (hpaid : r.paid = false) :
    ∃ db' : DB,
      fetch_and_store ext env aid tok s db =
        Except.ok
          (.dict [("error", .str "Payment failed"),
                  ("balance", .num s'.balance_usdc)], s', db') ∧
      db'.market_data = db.market_data ∧
      db'.payment_log = db.payment_log ∧
      db'.agent_state = db.agent_state ∧
      ∃ row : StrategyRow,
        db'.strategy_log = db.strategy_log ++ [row] ∧
        row.agent_id = aid ∧ row.action_type = "observation" ∧
        row.confidence = some 1 ∧
        row.decision = "FAILED: Insufficient balance for data purchase" := by
  have hq1 : decQuant 2 (1:ℚ) = 1 := by
    norm_num [decQuant, roundHalfAway, Int.floor_eq_iff]
  refine
    ⟨{ db with
        strategy_log := db.strategy_log ++
          [{ id := db.next_strategy_id
             agent_id := aid
             action_type := "observation"
             token_id := some tok
             signal_name := Option.none
             signal_value := Option.none
             decision := "FAILED: Insufficient balance for data purchase"
             reasoning := some ("Balance: $" ++ fmt4 s'.balance_usdc ++
               ", Required: $0.01")
             confidence := some (decQuant 2 1)
             metadata := Option.none
             created_at := db.clock }]
        next_strategy_id := db.next_strategy_id + 1
        clock := db.clock + 1 }, ?_, rfl, rfl, rfl,
     _, rfl, rfl, rfl, by rw [hq1], rfl⟩
  unfold fetch_and_store
  rw [hreq]
  simp only [except_bind_ok]
  simp [hpaid, log_strategy, liftO, sqlDec, actionTypes, PyVal.truthy,
    except_bind_ok]

theorem fetch_unpaid_no_writes_witness :
    ∃ db' : DB,
      fetch_and_store extInj envDown "agent-1" "ethereum"
          { clientSim0 with balance_usdc := 0 } DB.init =
        Except.ok
          (.dict [("error", .str "Payment failed"),
                  ("balance", .num 0)],
           { clientSim0 with balance_usdc := 0 }, db') ∧
      db'.market_data = [] ∧ db'.payment_log = [] ∧
      db'.agent_state = [] ∧
      ∃ row : StrategyRow, db'.strategy_log = [row] ∧
        row.action_type = "observation" ∧ row.confidence = some 1 := by
  have hreq := insufficient_funds_no_mutation extInj envDown
    (fetchEndpoint { clientSim0 with balance_usdc := 0 } "ethereum")
    (1/100) { clientSim0 with balance_usdc := 0 } (by decide)
    (by norm_num [clientSim0, X402Client.init])
  obtain ⟨db', hfetch, h1, h2, h3, row, hsl, _, hact, hconf, _⟩ :=
    fetch_unpaid_no_writes extInj envDown "agent-1" "ethereum"
      { clientSim0 with balance_usdc := 0 } DB.init _ _ hreq rfl
  exact ⟨db', hfetch, h1, h2, h3, row, hsl, hact, hconf⟩

theorem str_prefix_cancel (p a b : String) (h : p ++ a = p ++ b) :
    a = b := by
  have hd := congrArg String.data h
  simp [String.data_append] at hd
  exact String.ext hd

theorem entropy_tx_ne (ext : Ext)
    (hinj : ∀ i j, ext.rand i = ext.rand j → i = j) (i j : ℕ)
    (hne : i ≠ j) :
    PyVal.str ("0x" ++ ext.rand i) ≠ PyVal.str ("0x" ++ ext.rand j) := by
  intro h
  injection h with h'
  exact hne (hinj i j (str_prefix_cancel "0x" _ _ h'))

/-- Shape of a run of `n` simulated requests at a fixed cost: the
balance decreases by `n · cost`, the counter and ledger grow by `n`,
and — the entropy stream being injective — all recorded transaction
ids stay pairwise distinct entropy draws. -/
theorem sim_run_shape (ext : Ext) (env : LiveEnv) (ep : String)
    (cost : ℚ)
    (hinj : ∀ i j, ext.rand i = ext.rand j → i = j) (hcost : 0 ≤ cost)
    (n : ℕ) :
    ∀ s : ClientState,
      ¬(s.mode = "live" ∨
        (s.mode = "auto" ∧ ep.startsWith "http" = true)) →
      cost * n ≤ s.balance_usdc →
      (∀ r ∈ s.payments, ∃ i, i < s.rng ∧
        r.tx_id = PyVal.str ("0x" ++ ext.rand i)) →
      ((s.payments.map (fun p => p.tx_id)).Pairwise
        (fun a b => a ≠ b)) →
      (runRequests ext (List.replicate n (env, ep, cost)) s).balance_usdc
          = s.balance_usdc - n * cost ∧
      (runRequests ext (List.replicate n (env, ep, cost))
          s).payment_count = s.payment_count + n ∧
      (runRequests ext (List.replicate n (env, ep, cost))
          s).payments.length = s.payments.length + n ∧
      (runRequests ext (List.replicate n (env, ep, cost)) s).rng =
        s.rng + 13 * n ∧
      (∀ r ∈ (runRequests ext (List.replicate n (env, ep, cost))
          s).payments,
        ∃ i, i < (runRequests ext (List.replicate n (env, ep, cost))
          s).rng ∧ r.tx_id = PyVal.str ("0x" ++ ext.rand i)) ∧
      (((runRequests ext (List.replicate n (env, ep, cost))
          s).payments.map (fun p => p.tx_id)).Pairwise
        (fun a b => a ≠ b)) := by
  induction n with
  | zero =>
    intro s hmode hbud hform hpw
    simp only [List.replicate, runRequests]
    refine ⟨by norm_num, by norm_num, by norm_num, by norm_num,
      ?_, hpw⟩
    intro r hr
    obtain ⟨i, hi, he⟩ := hform r hr
    exact ⟨i, by omega, he⟩
  | succ n ih =>
    intro s hmode hbud hform hpw
    have hbal : ¬ s.balance_usdc < cost := by
      push_cast at hbud
      nlinarith [mul_nonneg hcost (Nat.cast_nonneg (α := ℚ) n)]
    obtain ⟨rc, h1, h2, h3, h4, h5, h6, h7, h8, h9, h10, h11, h12,
      h13, h14, h15⟩ := request_simulated_success ext ep cost s hbal
    have hstep : requestStep ext env ep cost s =
        (request_simulated ext ep cost s).2 := by
      unfold requestStep request
      rw [if_neg hmode]
    rw [List.replicate_succ]
    simp only [runRequests]
    rw [hstep]
    have ihs := ih (request_simulated ext ep cost s).2 ?_ ?_ ?_ ?_
    · obtain ⟨ib, ic, il, ir, iform, ipw⟩ := ihs
      refine ⟨?_, ?_, ?_, ?_, iform, ipw⟩
      · rw [ib, h4]; push_cast; ring
      · rw [ic, h6]; omega
      · rw [il, h7, List.length_append]; simp; omega
      · rw [ir, h8]; ring
    · rw [h13]; exact hmode
    · rw [h4]; push_cast at hbud ⊢; linarith
    · rw [h7, h8]
      intro r hr
      rcases List.mem_append.mp hr with hold | hnew
      · obtain ⟨i, hi, he⟩ := hform r hold
        exact ⟨i, by omega, he⟩
      · rw [List.mem_singleton.mp hnew]
        exact ⟨s.rng + 3, by omega, h14⟩
    · rw [h7, List.map_append]
      refine List.pairwise_append.mpr ⟨hpw, by simp, ?_⟩
      intro a ha b hb
      simp only [List.map_cons, List.map_nil, List.mem_singleton] at hb
      obtain ⟨r, hrmem, rfl⟩ := List.mem_map.mp ha
      obtain ⟨i, hi, he⟩ := hform r hrmem
      rw [he, hb, h14]
      exact entropy_tx_ne ext hinj i (s.rng + 3) (by omega)

/-- C6: a fresh client (balance 10.00) making 5 simulated requests at
cost 0.01 ends with balance exactly 9.95, payment_count 5 and a ledger
of 5 receipts with pairwise distinct transaction ids (entropy
injectivity standing in for the 256-bit random draws). -/
theorem five_requests_scenario (ext : Ext) (env : LiveEnv)
    (hinj : ∀ i j, ext.rand i = ext.rand j → i = j) :
    (runRequests ext
        (List.replicate 5 (env, "coingecko.com/api/v3/coins/ethereum",
          (1:ℚ)/100))
        (X402Client.init ext "base" "simulation"
          DEFAULT_FACILITATOR_URL)).balance_usdc = 199/20 ∧
    (runRequests ext
        (List.replicate 5 (env, "coingecko.com/api/v3/coins/ethereum",
          (1:ℚ)/100))
        (X402Client.init ext "base" "simulation"
          DEFAULT_FACILITATOR_URL)).payment_count = 5 ∧
    (runRequests ext
        (List.replicate 5 (env, "coingecko.com/api/v3/coins/ethereum",
          (1:ℚ)/100))
        (X402Client.init ext "base" "simulation"
          DEFAULT_FACILITATOR_URL)).payments.length = 5 ∧
    ((runRequests ext
        (List.replicate 5 (env, "coingecko.com/api/v3/coins/ethereum",
          (1:ℚ)/100))
        (X402Client.init ext "base" "simulation"
          DEFAULT_FACILITATOR_URL)).payments.map
        (fun p => p.tx_id)).Pairwise (fun a b => a ≠ b) := by
  obtain ⟨hb, hc, hl, _, _, hpw⟩ :=
    sim_run_shape ext env "coingecko.com/api/v3/coins/ethereum" (1/100)
      hinj (by norm_num) 5
      (X402Client.init ext "base" "simulation" DEFAULT_FACILITATOR_URL)
      (by simp [X402Client.init]) (by norm_num [X402Client.init])
      (by simp [X402Client.init]) (by simp [X402Client.init])
  refine ⟨?_, ?_, ?_, hpw⟩
  · rw [hb]; norm_num [X402Client.init]
  · rw [hc]; norm_num [X402Client.init]
  · rw [hl]; norm_num [X402Client.init]

theorem five_requests_scenario_witness :
    (∀ i j, extInj.rand i = extInj.rand j → i = j) ∧
    (runRequests extInj
        (List.replicate 5 (envDown, "coingecko.com/api/v3/coins/ethereum",
          (1:ℚ)/100))
        (X402Client.init extInj "base" "simulation"
          DEFAULT_FACILITATOR_URL)).balance_usdc = 199/20 ∧
    (runRequests extInj
        (List.replicate 5 (envDown, "coingecko.com/api/v3/coins/ethereum",
          (1:ℚ)/100))
        (X402Client.init extInj "base" "simulation"
          DEFAULT_FACILITATOR_URL)).payment_count = 5 := by
  have hinj : ∀ i j, extInj.rand i = extInj.rand j → i = j := by
    intro i j h
    have hl := congrArg String.length h
    simpa [extInj, String.length] using hl
  exact ⟨hinj, (five_requests_scenario extInj envDown hinj).1,
    (five_requests_scenario extInj envDown hinj).2.1⟩

theorem pyOr_num_zero (c : ℚ) :
    pyOr (PyVal.num c) (PyVal.num 0) = PyVal.num c := by
  by_cases h : c = 0
  · simp [pyOr, PyVal.truthy, h]
  · simp [pyOr, PyVal.truthy, h]

set_option maxHeartbeats 3000000 in
/-- C4 (amended): for every observation whose sentiment index is
truthy (non-zero) and below 25 or above 75, `analyze_and_decide` emits
exactly one "recommendation" decision row, with confidence 0.70,
signal `fear_greed_index`, and contrarian-buy reasoning below 25 /
take-profit reasoning above 75 — independently of rules 1 and 2.  A
sentiment index of 0 is falsy in `if fgi and (...)`, so the original
claim fails at that boundary. -/
theorem sentiment_rule_recommendation (db : DB) (aid tok : String)
    (p c v f : ℚ) (hf0 : f ≠ 0) (hf : f < 25 ∨ 75 < f) :
    ∃ ds db',
      analyze_and_decide aid tok (mkObs p c v f) db =
        Except.ok (ds, db') ∧
      ((newRows db db').filter
        (fun row => row.action_type = "recommendation")).length = 1 ∧
      ∀ row ∈ newRows db db', row.action_type = "recommendation" →
        row.confidence = some (7/10) ∧
        row.signal_name = some "fear_greed_index" ∧
        row.reasoning = some (if f < 25 then
          "Potential buying opportunity (contrarian)"
          else "Consider taking profits") := by
  have hq7 : decQuant 2 ((7:ℚ)/10) = 7/10 := by
    norm_num [decQuant, roundHalfAway, Int.floor_eq_iff]
  rcases hf with hf25 | hf75 <;>
    by_cases hv4 : 4 < v <;> by_cases hc3 : 3 < |c|
  all_goals try (have hv0 : v ≠ 0 := by intro h; rw [h] at hv4; norm_num at hv4)
  all_goals try (have hnf25 : ¬ f < 25 := by intro hcon; linarith)
  all_goals (
    simp [analyze_and_decide, mkObs, pyGet, pyLookup, pyOr_num_zero,
      asNumE, liftO, PyVal.asNum, PyVal.truthy, log_strategy,
      actionTypes, sqlDec, except_bind_ok, *];
    refine ⟨_, _, ⟨rfl, rfl⟩, ?_, ?_⟩ <;>
      simp [newRows, List.drop_left, List.forall_mem_cons, *])

/-- C4 (counterexample): an observation with sentiment index 0 — an
extreme-fear boundary value the claim includes — produces no
"recommendation" row at all: `if fgi and (...)` treats 0 as falsy. -/
theorem sentiment_rule_zero_cex :
    (0:ℚ) < 25 ∧
    ∃ ds db',
      analyze_and_decide "agent-1" "ethereum" (mkObs 2650 1 1 0)
        DB.init = Except.ok (ds, db') ∧
      ((newRows DB.init db').filter
        (fun row => row.action_type = "recommendation")).length = 0 := by
  refine ⟨by norm_num, ?_⟩
  have h1 : ¬ (4:ℚ) < 1 := by norm_num
  have h2 : ¬ (3:ℚ) < |(1:ℚ)| := by norm_num
  simp [analyze_and_decide, mkObs, pyGet, pyLookup, pyOr_num_zero,
    asNumE, liftO, PyVal.asNum, PyVal.truthy, log_strategy, actionTypes,
    sqlDec, except_bind_ok, h1, h2]
  refine ⟨_, _, ⟨rfl, rfl⟩, ?_⟩
  simp [newRows, List.drop_left]

theorem sentiment_rule_recommendation_witness :
    (10:ℚ) ≠ 0 ∧ ((10:ℚ) < 25 ∨ 75 < (10:ℚ)) ∧
    ∃ ds db',
      analyze_and_decide "agent-1" "ethereum" (mkObs 2650 (1/2) 1 10)
        DB.init = Except.ok (ds, db') ∧
      ((newRows DB.init db').filter
        (fun row => row.action_type = "recommendation")).length = 1 := by
  obtain ⟨ds, db', h1, h2, _⟩ :=
    sentiment_rule_recommendation DB.init "agent-1" "ethereum" 2650
      (1/2) 1 10 (by norm_num) (Or.inl (by norm_num))
  exact ⟨by norm_num, Or.inl (by norm_num), ds, db', h1, h2⟩

set_option maxHeartbeats 6000000 in
/-- C5: on a numeric observation, the decision rules each write exactly
one row when they fire, `analyze_and_decide` writes a single
"observation" row with confidence 0.95 exactly when none of rules 1–3
fired, and in that case the whole delta is that one row (covering the
volatility 1.0 / change 0.5 / sentiment 50 scenario). -/
theorem observation_rule (db : DB) (aid tok : String) (p c v f : ℚ) :
    ∃ ds db',
      analyze_and_decide aid tok (mkObs p c v f) db =
        Except.ok (ds, db') ∧
      (((newRows db db').filter (fun row =>
          row.action_type = "observation" ∧
          row.confidence = some (19/20))).length = 1 ↔
        (¬(v ≠ 0 ∧ 4 < v) ∧ ¬(3 < |c|) ∧
          ¬(f ≠ 0 ∧ (f < 25 ∨ 75 < f)))) ∧
      (newRows db db').length =
        ((if v ≠ 0 ∧ 4 < v then 1 else 0) +
         (if 3 < |c| then 1 else 0) +
         (if f ≠ 0 ∧ (f < 25 ∨ 75 < f) then 1 else 0) +
         (if ¬(v ≠ 0 ∧ 4 < v) ∧ ¬(3 < |c|) ∧
            ¬(f ≠ 0 ∧ (f < 25 ∨ 75 < f)) then 1 else 0)) ∧
      ((¬(v ≠ 0 ∧ 4 < v) ∧ ¬(3 < |c|) ∧
          ¬(f ≠ 0 ∧ (f < 25 ∨ 75 < f))) →
        ∃ row, newRows db db' = [row] ∧
          row.action_type = "observation" ∧
          row.confidence = some (19/20)) := by
  have hq95 : decQuant 2 ((19:ℚ)/20) = 19/20 := by
    norm_num [decQuant, roundHalfAway, Int.floor_eq_iff]
  have hq85 : decQuant 2 ((85:ℚ)/100) = 85/100 := by
    norm_num [decQuant, roundHalfAway, Int.floor_eq_iff]
  have hq9 : decQuant 2 ((9:ℚ)/10) = 9/10 := by
    norm_num [decQuant, roundHalfAway, Int.floor_eq_iff]
  have hq7 : decQuant 2 ((7:ℚ)/10) = 7/10 := by
    norm_num [decQuant, roundHalfAway, Int.floor_eq_iff]
  by_cases hv4 : 4 < v <;> by_cases hc3 : 3 < |c|
  all_goals try (have hv0 : v ≠ 0 := by intro h; rw [h] at hv4; norm_num at hv4)
  all_goals (
    by_cases hf0 : f = 0 <;>
    [skip; by_cases hf25 : f < 25] <;>
    [skip; skip; by_cases hf75 : 75 < f] <;>
    (simp [analyze_and_decide, mkObs, pyGet, pyLookup, pyOr_num_zero,
        asNumE, liftO, PyVal.asNum, PyVal.truthy, log_strategy,
        actionTypes, sqlDec, except_bind_ok, *];
     first
      | (refine ⟨_, _, ⟨rfl, rfl⟩, ?_, ?_, ?_⟩ <;>
          simp [newRows, List.drop_left, List.forall_mem_cons, *])
      | (refine ⟨_, _, ⟨rfl, rfl⟩, ?_, ?_⟩ <;>
          simp [newRows, List.drop_left, List.forall_mem_cons, *])
      | (refine ⟨_, _, ⟨rfl, rfl⟩, ?_⟩ <;>
          simp [newRows, List.drop_left, List.forall_mem_cons, *])
      | exact ⟨_, _, rfl, rfl⟩
      | simp [newRows, List.drop_left, List.forall_mem_cons, *]))
